import Mathlib

/-
Verification development for the IoT real-time data pipeline
(Kinesis lambda validator/alert engine in `Lambda/lamda.py` and the
incremental Glue warehouse loader in `ETL job - Glue/s3-to-redshift.py`).

The Python code is shallowly embedded below:
* Python values appearing in `sensor_data` are modelled by `PyVal`
  (absent key / JSON null, numbers, strings).  Python numbers are
  modelled by `ℚ` (the claims under study never depend on binary
  floating-point rounding).
* Python dicts are modelled by insertion-ordered association lists.
* Functions that can raise are modelled with `Except String`.
* The SQL of the loader is modelled row-by-row with `Option` fields and
  SQL three-valued comparison semantics (`NULL = x` is not TRUE).
* Wall-clock instants are modelled by `ℚ` (seconds); the 5 minute
  throttle interval is 300.
-/

set_option allowUnsafeReducibility true
attribute [semireducible] Rat.add Rat.mul Rat.inv Rat.sub Rat.ofScientific

set_option maxHeartbeats 2000000
set_option maxRecDepth 4000

namespace FarmPipeline

/-- A Python value as it can occur in the `sensor_data` mapping of a decoded
record: `null` stands for both JSON `null` and a `dict.get` miss, `num` for
`int`/`float`, `str` for strings. -/
inductive PyVal where
  | null : PyVal
  | num : ℚ → PyVal
  | str : String → PyVal
deriving DecidableEq, Repr

/-- Association-list lookup, modelling `dict.get(key)` (Python dicts keep
insertion order; keys are unique). -/
def lookupA {β : Type} : List (String × β) → String → Option β
  | [], _ => Option.none
  | (k, v) :: rest, key => if k = key then some v else lookupA rest key

/-- Association-list update, modelling `d[key] = v` (overwrite in place,
append if the key is new). -/
def setA {β : Type} : List (String × β) → String → β → List (String × β)
  | [], key, v => [(key, v)]
  | (k, w) :: rest, key, v => if k = key then (k, v) :: rest else (k, w) :: setA rest key v

/-- The value `sensor_data.get(name)` seen by the validation loop: an absent
key and a present `None` both surface as `PyVal.null`. -/
def getVal (sd : List (String × PyVal)) (k : String) : PyVal :=
  (lookupA sd k).getD PyVal.null

/-- Digits of a decimal string to a natural number. -/
def digitsToNat (l : List Char) : ℕ :=
  l.foldl (fun acc c => 10 * acc + (c.toNat - 48)) 0

/-- Model of Python `float(s)` on strings, restricted to plain decimal
forms `[+-]digits[.digits]` (the lambda only ever feeds it sensor strings;
exotic accepted forms such as exponents or "inf" are not modelled — no
claim under study depends on them). -/
def pyFloat? (s : String) : Option ℚ :=
  let chars := s.data
  let signRest : ℚ × List Char :=
    match chars with
    | '-' :: r => (-1, r)
    | '+' :: r => (1, r)
    | r => (1, r)
  let intPart := signRest.2.takeWhile Char.isDigit
  let rest2 := signRest.2.dropWhile Char.isDigit
  match rest2 with
  | [] =>
      if intPart = [] then Option.none
      else some (signRest.1 * (digitsToNat intPart : ℚ))
  | '.' :: frac =>
      if frac.all Char.isDigit ∧ (intPart ≠ [] ∨ frac ≠ []) then
        some (signRest.1 * ((digitsToNat intPart : ℚ) +
          (digitsToNat frac : ℚ) / ((10 : ℚ) ^ frac.length)))
      else Option.none
  | _ => Option.none

/-- The sentinel list of `validate_record`
(`[0, 9999, -9999, '0', '9999', '-9999', 'null', 'NULL', 'NaN', None]`);
Python `in` compares with `==`, which never equates values of these
different types, so plain `PyVal` equality is faithful. -/
def extreme_values : List PyVal :=
  [PyVal.num 0, PyVal.num 9999, PyVal.num (-9999), PyVal.str "0", PyVal.str "9999",
   PyVal.str "-9999", PyVal.str "null", PyVal.str "NULL", PyVal.str "NaN", PyVal.null]

/-- The table `EXPECTED_RANGES_PER_LOCATION` from the lambda, per location an ordered
list of `(quantity, min, max)`. -/
def EXPECTED_RANGES_PER_LOCATION : List (String × List (String × ℚ × ℚ)) :=
  [("loc_1", [("temperature", 10, 50), ("humidity", 30, 90), ("water_level", mkRat 1 2, 3),
      ("nitrogen", 80, 150), ("phosphorus", 40, 80), ("potassium", 40, 80), ("ph", 6, 8)]),
   ("loc_2", [("temperature", 15, 55), ("humidity", 25, 80), ("water_level", mkRat 3 10, mkRat 5 2),
      ("nitrogen", 70, 140), ("phosphorus", 30, 70), ("potassium", 30, 70), ("ph", mkRat 13 2, mkRat 17 2)]),
   ("loc_3", [("temperature", 12, 52), ("humidity", 28, 85), ("water_level", mkRat 2 5, mkRat 14 5),
      ("nitrogen", 75, 145), ("phosphorus", 35, 75), ("potassium", 35, 75), ("ph", mkRat 31 5, mkRat 41 5)])]

/-- The in-range / buffer / out-of-range decision at the end of one
iteration of the sensor loop of `validate_record`, applied to an already
numeric value `v` (`preW` carries a type-conversion warning emitted just
before the range check, `sd` the possibly updated sensor map). -/
def rangeOutcome (sensor_name : String) (min_val max_val v : ℚ)
    (sd : List (String × PyVal)) (preW : List String) :
    List String × List String × List (String × PyVal) :=
  if min_val ≤ v ∧ v ≤ max_val then ([], preW, sd)
  else
    let buffer := (max_val - min_val) * (1/10)
    if min_val - buffer ≤ v ∧ v ≤ max_val + buffer then
      ([], preW ++ ["sensor_data:" ++ sensor_name ++ "_near_threshold"], sd)
    else
      (["sensor_data:" ++ sensor_name ++ "_out_of_range"], preW, sd)

/-- One iteration of the `for sensor_name, (min_val, max_val) in
location_ranges.items()` loop of `validate_record`: returns the errors and
warnings contributed for this quantity and the (possibly mutated)
`sensor_data`.  Mirrors the source order: sentinel check, dead
`val is None` check, type check/coercion, range check. -/
def checkSensor (sd : List (String × PyVal)) (sensor_name : String)
    (min_val max_val : ℚ) :
    List String × List String × List (String × PyVal) :=
  let val := getVal sd sensor_name
  if val ∈ extreme_values then
    (["sensor_data:" ++ sensor_name ++ "_extreme_value"], [], sd)
  else if val = PyVal.null then
    (["sensor_data:" ++ sensor_name ++ "_missing"], [], sd)
  else
    match val with
    | PyVal.null => (["sensor_data:" ++ sensor_name ++ "_missing"], [], sd)
    | PyVal.num v => rangeOutcome sensor_name min_val max_val v sd []
    | PyVal.str sv =>
        match pyFloat? sv with
        | some converted_val =>
            rangeOutcome sensor_name min_val max_val converted_val
              (setA sd sensor_name (PyVal.num converted_val))
              ["sensor_data:" ++ sensor_name ++ "_type_converted"]
        | Option.none => (["sensor_data:" ++ sensor_name ++ "_invalid_type"], [], sd)

/-- The whole sensor loop of `validate_record`, threading the mutable
`sensor_data` through the iterations and concatenating errors/warnings in
loop order. -/
def validateSensors : List (String × ℚ × ℚ) → List (String × PyVal) →
    List String × List String × List (String × PyVal)
  | [], sd => ([], [], sd)
  | (name, mn, mx) :: rest, sd =>
      let r := checkSensor sd name mn mx
      let rr := validateSensors rest r.2.2
      (r.1 ++ rr.1, r.2.1 ++ rr.2.1, rr.2.2)

/-- A decoded inbound record as `validate_record` sees it.  Only the parts
the validator reads are modelled; `location` records mere key presence and
`weather_data` maps quantity names to numbers (per the spec's external
interface, weather values are numeric). -/
structure Reading where
  event_id : Option String
  timestamp : Option String
  loc_id : Option String
  sensor_data : Option (List (String × PyVal))
  weather_data : Option (List (String × ℚ))
  location : Bool
deriving DecidableEq, Repr

/-- Validation status of a record. -/
inductive Status where
  | VALID | WARNING | INVALID
deriving DecidableEq, Repr

/-- Result of a completed run of `validate_record`, including the possibly
mutated `sensor_data` (the in-place string-to-float coercions). -/
structure VResult where
  status : Status
  errors : List String
  warnings : List String
  sd : List (String × PyVal)
deriving DecidableEq, Repr

/-- The `missing_top_level_key:` errors of `validate_record`, in the order
of its `required_keys` list. -/
def missingTopLevel (data : Reading) : List String :=
  (if data.event_id.isSome then [] else ["missing_top_level_key:event_id"]) ++
  (if data.timestamp.isSome then [] else ["missing_top_level_key:timestamp"]) ++
  (if data.sensor_data.isSome then [] else ["missing_top_level_key:sensor_data"]) ++
  (if data.weather_data.isSome then [] else ["missing_top_level_key:weather_data"]) ++
  (if data.location then [] else ["missing_top_level_key:location"])

/-- The temperature cross-check against `weather_data` at the end of
`validate_record`.  It reads the possibly mutated `sensor_data`; if the
stored temperature survived as a string or `None` (a textual sentinel or an
unconvertible string), the Python expression
`abs(sensor_temp - weather_temp)` raises `TypeError`. -/
def crossCheck (data : Reading) (sd : List (String × PyVal)) :
    Except String (List String) :=
  if (lookupA sd "temperature").isSome ∧ data.weather_data.isSome then
    match data.weather_data with
    | some wd =>
        match lookupA wd "temperature_2m" with
        | some weather_temp =>
            match getVal sd "temperature" with
            | PyVal.num sensor_temp =>
                if |sensor_temp - weather_temp| > 15 then
                  Except.ok ["temperature_mismatch:" ++ toString sensor_temp ++ "vs" ++
                    toString weather_temp]
                else Except.ok []
            | _ => Except.error "TypeError"
        | Option.none => Except.ok []
    | Option.none => Except.ok []
  else Except.ok []

/-- Status derivation at the end of `validate_record`: errors win, then
warnings, else VALID. -/
def deriveStatus (errors warnings : List String) : Status :=
  if errors ≠ [] then Status.INVALID
  else if warnings ≠ [] then Status.WARNING
  else Status.VALID

/-- Model of `validate_record(data)` including the mutated `sensor_data`.  Mirrors the
source control flow: falsy `loc_id` and unknown `loc_id` fail fast, missing
top-level keys accumulate, falsy `sensor_data` returns INVALID, then the
sensor loop and the weather cross-check run; the cross-check can raise. -/
def validate_full (data : Reading) : Except String VResult :=
  let locFalsy : Bool :=
    match data.loc_id with
    | Option.none => true
    | some l => l = ""
  if locFalsy then
    Except.ok ⟨Status.INVALID, ["missing_loc_id"], [], (data.sensor_data).getD []⟩
  else
    match data.loc_id with
    | Option.none => Except.ok ⟨Status.INVALID, ["missing_loc_id"], [], (data.sensor_data).getD []⟩
    | some loc =>
      match lookupA EXPECTED_RANGES_PER_LOCATION loc with
      | Option.none =>
          Except.ok ⟨Status.INVALID, ["invalid_loc_id:" ++ loc], [], (data.sensor_data).getD []⟩
      | some location_ranges =>
        let errs0 := missingTopLevel data
        let sd0 := (data.sensor_data).getD []
        if sd0 = [] then
          Except.ok ⟨Status.INVALID, errs0 ++ ["missing_sensor_data"], [], sd0⟩
        else
          let r := validateSensors location_ranges sd0
          match crossCheck data r.2.2 with
          | Except.error e => Except.error e
          | Except.ok cw =>
            let errors := errs0 ++ r.1
            let warnings := r.2.1 ++ cw
            Except.ok ⟨deriveStatus errors warnings, errors, warnings, r.2.2⟩

/-- The externally visible triple returned by `validate_record`. -/
def validate_record (data : Reading) : Except String (Status × List String × List String) :=
  (validate_full data).map (fun r => (r.status, r.errors, r.warnings))

/-- Python `s.startswith(p)` on our string model. -/
def pyStartsWith (s p : String) : Bool :=
  p.data.isPrefixOf s.data

/-- Python `sub in s` (substring test) on our string model. -/
def containsSub (s sub : String) : Bool :=
  decide (sub.data <:+: s.data)

/-- The per-error classification of `handle_alerts`'s `if/elif` chain:
`extreme_value → sensor_failure`, else `missing → sensor_disconnected`,
else `out_of_range → sensor_malfunction`, else nothing. -/
def classifyError (e : String) : Option String :=
  if containsSub e "extreme_value" then some "sensor_failure"
  else if containsSub e "missing" then some "sensor_disconnected"
  else if containsSub e "out_of_range" then some "sensor_malfunction"
  else Option.none

/-- The `error_types` set built by `handle_alerts` from the errors that start
with `"sensor_data"` (Python uses a `set`; only membership matters to the
code, so a deduplicated list is a faithful determinisation). -/
def classifyErrors (errors : List String) : List String :=
  ((errors.filter (fun e => pyStartsWith e "sensor_data")).filterMap classifyError).dedup

/-- A candidate alert produced by `handle_alerts`. -/
structure Alert where
  type : String
  priority : String
  description : String
deriving DecidableEq, Repr

/-- Model of `sensor_data.get(k)` when the code also requires
`is not None and isinstance(value, (int, float))`: yields the number or
nothing. -/
def numVal (sd : List (String × PyVal)) (k : String) : Option ℚ :=
  match lookupA sd k with
  | some (PyVal.num q) => some q
  | _ => Option.none

/-- The nutrient loop of `handle_alerts`; looking up `EXPECTED_RANGES_PER_LOCATION[loc_id]`
or `ranges[nutrient]` for an unknown key raises `KeyError` exactly as the
Python subscript does. -/
def nutrientLoop (loc_id : String) (sd : List (String × PyVal)) :
    List String → Except String (List Alert)
  | [] => Except.ok []
  | n :: rest =>
      match numVal sd n with
      | Option.none => nutrientLoop loc_id sd rest
      | some value =>
          match lookupA EXPECTED_RANGES_PER_LOCATION loc_id with
          | Option.none => Except.error "KeyError"
          | some ranges =>
              match lookupA ranges n with
              | Option.none => Except.error "KeyError"
              | some mnmx =>
                  let here : List Alert :=
                    if value < mnmx.1 * (4/5) then
                      [⟨"Low Nutrient", "MEDIUM",
                        "Low " ++ n ++ " level: " ++ toString value ++ " at " ++ loc_id⟩]
                    else []
                  match nutrientLoop loc_id sd rest with
                  | Except.error e => Except.error e
                  | Except.ok more => Except.ok (here ++ more)

/-- The operational-threshold block of `handle_alerts` (runs when the status
is VALID or WARNING): temperature, water level, soil pH and nutrient
rules, in source order. -/
def operationalAlerts (loc_id : String) (sd : List (String × PyVal)) :
    Except String (List Alert) :=
  let tempA : List Alert :=
    match numVal sd "temperature" with
    | some temp =>
        if temp > 35 then
          [⟨"High Temperature", "HIGH",
            "High temperature warning: " ++ toString temp ++ " at " ++ loc_id⟩]
        else if temp < 5 then
          [⟨"Low Temperature", "HIGH",
            "Low temperature warning: " ++ toString temp ++ " at " ++ loc_id⟩]
        else []
    | Option.none => []
  let waterA : List Alert :=
    match numVal sd "water_level" with
    | some water_level =>
        if water_level < 1 then
          [⟨"Low Water Level", "HIGH",
            "Low water level alert: " ++ toString water_level ++ " at " ++ loc_id⟩]
        else if water_level > mkRat 5 2 then
          [⟨"High Water Level", "MEDIUM",
            "High water level: " ++ toString water_level ++ " at " ++ loc_id⟩]
        else []
    | Option.none => []
  let phA : List Alert :=
    match numVal sd "ph" with
    | some ph_level =>
        if ph_level < 6 ∨ ph_level > mkRat 15 2 then
          [⟨"Soil pH Warning",
            (if ph_level < mkRat 11 2 ∨ ph_level > 8 then "HIGH" else "MEDIUM"),
            "Soil pH out of optimal range: " ++ toString ph_level ++ " at " ++ loc_id⟩]
        else []
    | Option.none => []
  match nutrientLoop loc_id sd ["nitrogen", "phosphorus", "potassium"] with
  | Except.error e => Except.error e
  | Except.ok na => Except.ok (tempA ++ waterA ++ phA ++ na)

/-- Model of `handle_alerts(record, status, errors, ...)`: CRITICAL "Sensor Failure"
alerts per distinct error classification when INVALID, operational alerts
when VALID/WARNING. -/
def handle_alerts (loc_id : String) (sd : List (String × PyVal)) (status : Status)
    (errors : List String) : Except String (List Alert) :=
  let crit : List Alert :=
    if status = Status.INVALID then
      (classifyErrors errors).map (fun error_type =>
        ⟨"Sensor Failure", "CRITICAL",
          "Critical sensor issue detected at " ++ loc_id ++ ": " ++ error_type⟩)
    else []
  if status = Status.VALID ∨ status = Status.WARNING then
    match operationalAlerts loc_id sd with
    | Except.error e => Except.error e
    | Except.ok ops => Except.ok (crit ++ ops)
  else Except.ok crit

/-- The constant `ALERT_INTERVAL = timedelta(minutes=5)`, in seconds. -/
def ALERT_INTERVAL : ℚ := 300

/-- The constant `CONSECUTIVE_RECORDS_THRESHOLD = 1`. -/
def CONSECUTIVE_RECORDS_THRESHOLD : ℕ := 1

/-- The process-wide `alert_state` dictionary (`last_sent` maps alert keys to
instants, `consecutive_counts` to counters). -/
structure AlertState where
  last_sent : List (String × ℚ)
  consecutive_counts : List (String × ℕ)
deriving DecidableEq, Repr

/-- The empty `alert_state` a fresh process starts with. -/
def initialAlertState : AlertState := ⟨[], []⟩

/-- Model of `check_and_send_alert(alert, loc_id, ...)` at instant `now`: returns
whether the alert was sent and the updated `alert_state`.  CRITICAL bypasses
throttling and records `last_sent`; otherwise a send within
`ALERT_INTERVAL` of `last_sent` is suppressed unchanged; otherwise the
consecutive counter is bumped and compared with the threshold. -/
def check_and_send_alert (st : AlertState) (alert : Alert) (loc_id : String)
    (now : ℚ) : Bool × AlertState :=
  let alert_key := loc_id ++ "|" ++ alert.type
  if alert.priority = "CRITICAL" then
    (true, { st with last_sent := setA st.last_sent alert_key now })
  else
    let throttled : Bool :=
      match lookupA st.last_sent alert_key with
      | some last => decide (now - last < ALERT_INTERVAL)
      | Option.none => false
    if throttled then (false, st)
    else
      let count := (lookupA st.consecutive_counts alert_key).getD 0 + 1
      if CONSECUTIVE_RECORDS_THRESHOLD ≤ count then
        (true, ⟨setA st.last_sent alert_key now, setA st.consecutive_counts alert_key 0⟩)
      else
        (false, { st with consecutive_counts := setA st.consecutive_counts alert_key count })

/-- Repeatedly feed the same candidate alert through `check_and_send_alert`
at the given sequence of instants, collecting the sent/suppressed outcomes. -/
def runAlerts (st : AlertState) (alert : Alert) (loc_id : String) :
    List ℚ → List Bool × AlertState
  | [] => ([], st)
  | t :: ts =>
      let r := check_and_send_alert st alert loc_id t
      let rest := runAlerts r.2 alert loc_id ts
      (r.1 :: rest.1, rest.2)

/-- Fold an arbitrary sequence of candidate alerts
`(alert, loc_id, instant)` through `check_and_send_alert`. -/
def applyAlertOps (st : AlertState) : List (Alert × String × ℚ) → AlertState
  | [] => st
  | op :: ops => applyAlertOps (check_and_send_alert st op.1 op.2.1 op.2.2).2 ops

/-- Outcome of processing one decoded record inside `lambda_handler`'s loop:
whether it ran to completion (`ok = false` means an exception was caught by
the generic handler), how many candidate alerts `handle_alerts` produced,
how many of them `check_and_send_alert` actually sent, and the throttle
state afterwards. -/
structure RecOutcome where
  ok : Bool
  generated : ℕ
  emitted : ℕ
  state : AlertState
deriving Repr

/-- The per-record alert loop of `lambda_handler`: each candidate alert goes
through `check_and_send_alert`; sends are counted (the code appends them to
`data["alerts_sent"]`). -/
def processAlertsFor (st : AlertState) (loc_id : String) (now : ℚ) :
    List Alert → ℕ × AlertState
  | [] => (0, st)
  | a :: rest =>
      let r := check_and_send_alert st a loc_id now
      let rr := processAlertsFor r.2 loc_id now rest
      ((if r.1 then 1 else 0) + rr.1, rr.2)

/-- Composition of `validate_record` and `handle_alerts` on one decoded record;
an exception in either propagates (and is caught by the handler's generic
`except` branch). -/
def recAlerts (data : Reading) : Except String (List Alert) :=
  match validate_full data with
  | Except.error e => Except.error e
  | Except.ok vr => handle_alerts ((data.loc_id).getD "unknown") vr.sd vr.status vr.errors

/-- One iteration of `lambda_handler`'s record loop on an already decoded
record at instant `now` (all `utcnow()` calls while handling one record are
identified; the S3 uploads have no effect on any count because their
exceptions are caught internally). -/
def processRecord (st : AlertState) (data : Reading) (now : ℚ) : RecOutcome :=
  match recAlerts data with
  | Except.error _ => ⟨false, 0, 0, st⟩
  | Except.ok alerts =>
      let r := processAlertsFor st ((data.loc_id).getD "unknown") now alerts
      ⟨true, alerts.length, r.1, r.2⟩

/-- The summary the handler returns in its response body. -/
structure Summary where
  processed_records : ℕ
  error_records : ℕ
  total_alerts_generated : ℕ
deriving DecidableEq, Repr

/-- Result of a whole `lambda_handler` invocation: the returned summary,
plus (as an observer needed to state the claims) the number of alerts that
were actually sent, and the final throttle state. -/
structure BatchOutcome where
  summary : Summary
  emitted : ℕ
  state : AlertState
deriving Repr

/-- Model of `lambda_handler` over a batch of already decoded records with their
processing instants: accumulates `processed_count`, `error_count` and
`alert_count += len(alerts)` exactly as the source does. -/
def processBatch (st : AlertState) : List (Reading × ℚ) → BatchOutcome
  | [] => ⟨⟨0, 0, 0⟩, 0, st⟩
  | (data, now) :: rest =>
      let r := processRecord st data now
      let rr := processBatch r.state rest
      if r.ok then
        ⟨⟨rr.summary.processed_records + 1, rr.summary.error_records,
          rr.summary.total_alerts_generated + r.generated⟩,
         rr.emitted + r.emitted, rr.state⟩
      else
        ⟨⟨rr.summary.processed_records, rr.summary.error_records + 1,
          rr.summary.total_alerts_generated⟩,
         rr.emitted + r.emitted, rr.state⟩

/-! The incremental warehouse loader (`s3-to-redshift.py`).  Rows carry
`Option` fields (SQL `NULL` is `Option.none`); timestamps are instants
modelled by `ℚ`.  Comparisons in `WHERE`/`ON` clauses follow SQL
three-valued logic: a comparison involving `NULL` is not TRUE. -/

/-- SQL equality as used in a `WHERE`/`ON` context: TRUE only when both
operands are non-null and equal. -/
def nullEq {α : Type} [DecidableEq α] : Option α → Option α → Bool
  | some x, some y => decide (x = y)
  | _, _ => false

/-- SQL `v NOT IN (list)` in a `WHERE` context: TRUE only when `v` is
non-null and every listed element is non-null and different from it. -/
def sqlNotIn {α : Type} [DecidableEq α] (v : Option α) (s : List (Option α)) : Bool :=
  match v with
  | Option.none => false
  | some x => s.all (fun e =>
      match e with
      | some y => decide (y ≠ x)
      | Option.none => false)

/-- One row of the `valid_readings` source table, with the columns the job
reads. -/
structure SourceRow where
  event_id : Option String
  timestamp : Option ℚ
  loc_id : Option String
  latitude : Option ℚ
  longitude : Option ℚ
  temperature : Option ℚ
  humidity : Option ℚ
  water_level : Option ℚ
  ph : Option ℚ
  nitrogen : Option ℚ
  phosphorus : Option ℚ
  potassium : Option ℚ
  weather_temperature_2m : Option ℚ
  weather_relative_humidity_2m : Option ℚ
  weather_wind_speed_10m : Option ℚ
  weather_wind_direction_10m : Option ℚ
  weather_rain : Option ℚ
  weather_surface_pressure : Option ℚ
  validation_status : Option String
deriving DecidableEq, Repr

/-- A `dim_location` row. -/
structure DimLocationRow where
  loc_id : Option String
  latitude : Option ℚ
  longitude : Option ℚ
deriving DecidableEq, Repr

/-- A `dim_time` row (`full_date` plus the EXTRACTed calendar fields). -/
structure DimTimeRow where
  full_date : Option ℚ
  year : Option ℤ
  month : Option ℤ
  day : Option ℤ
  hour : Option ℤ
  minute : Option ℤ
deriving DecidableEq, Repr

/-- A `dim_soil` row. -/
structure DimSoilRow where
  ph : Option ℚ
  nitrogen : Option ℚ
  phosphorus : Option ℚ
  potassium : Option ℚ
deriving DecidableEq, Repr

/-- A `dim_weather` row. -/
structure DimWeatherRow where
  weather_temperature : Option ℚ
  weather_humidity : Option ℚ
  wind_speed : Option ℚ
  wind_direction : Option ℚ
  rain : Option ℚ
  surface_pressure : Option ℚ
deriving DecidableEq, Repr

/-- A `fact_sensor_readings` row; the `*_key` surrogate keys are the
positions of the joined dimension rows in their tables. -/
structure FactRow where
  evt_id : Option String
  location_key : ℕ
  weather_key : ℕ
  soil_key : ℕ
  full_date : Option ℚ
  soil_temperature : Option ℚ
  soil_humidity : Option ℚ
  water_level : Option ℚ
  validation_status : Option String
deriving DecidableEq, Repr

/-- The warehouse state touched by the job. -/
structure DB where
  dim_location : List DimLocationRow
  dim_time : List DimTimeRow
  dim_soil : List DimSoilRow
  dim_weather : List DimWeatherRow
  facts : List FactRow
deriving DecidableEq, Repr

/-- Maximum of a list of rationals, `none` on the empty list (SQL `MAX`
ignores no rows here because nulls are removed before the call). -/
def maxOfList : List ℚ → Option ℚ
  | [] => Option.none
  | a :: rest =>
      match maxOfList rest with
      | Option.none => some a
      | some m => some (max a m)

/-- The `'1970-01-01 00:00:00.000'` fallback used when the fact table is
empty (instant 0 of our time scale). -/
def epochTs : ℚ := 0

/-- The query `SELECT MAX(full_date) FROM fact_sensor_readings`, with the epoch
fallback when the result is NULL. -/
def watermark (db : DB) : ℚ :=
  (maxOfList (db.facts.filterMap FactRow.full_date)).getD epochTs

/-- The extraction `valid_readings_df.filter(col("timestamp") > last_ts)`: rows with a
non-null timestamp strictly above the watermark. -/
def extractNew (src : List SourceRow) (db : DB) : List SourceRow :=
  src.filter (fun r =>
    match r.timestamp with
    | some t => decide (watermark db < t)
    | Option.none => false)

/-- The `SELECT DISTINCT ... WHERE loc_id IS NOT NULL AND loc_id NOT IN
(SELECT loc_id FROM dim_location)` candidate set of the `dim_location`
insert (presence is tested on `loc_id` alone). -/
def dimLocationCandidates (nv : List SourceRow) (tbl : List DimLocationRow) :
    List DimLocationRow :=
  ((nv.filter (fun r =>
      r.loc_id.isSome && sqlNotIn r.loc_id (tbl.map DimLocationRow.loc_id))).map
    (fun r => DimLocationRow.mk r.loc_id r.latitude r.longitude)).dedup

/-- The `dim_location` INSERT statement. -/
def insertDimLocation (nv : List SourceRow) (db : DB) : DB :=
  { db with dim_location := db.dim_location ++ dimLocationCandidates nv db.dim_location }

/-- Days-to-civil-date conversion (proleptic Gregorian), used to model the
SQL `EXTRACT` functions on a timestamp.  Standard era-based algorithm. -/
def civilFromDays (z0 : ℤ) : ℤ × ℤ × ℤ :=
  let z := z0 + 719468
  let era := Int.fdiv z 146097
  let doe := z - era * 146097
  let yoe := (doe - doe / 1460 + doe / 36524 - doe / 146096) / 365
  let y := yoe + era * 400
  let doy := doe - (365 * yoe + yoe / 4 - yoe / 100)
  let mp := (5 * doy + 2) / 153
  let d := doy - (153 * mp + 2) / 5 + 1
  let m := mp + (if mp < 10 then 3 else -9)
  (y + (if m ≤ 2 then 1 else 0), m, d)

/-- The `dim_time` tuple built from a timestamp: `full_date` plus
`EXTRACT(YEAR|MONTH|DAY|HOUR|MINUTE)`; EXTRACT of NULL is NULL. -/
def mkDimTimeRow (ts : Option ℚ) : DimTimeRow :=
  match ts with
  | some t =>
      let s : ℤ := ⌊t⌋
      let days := Int.fdiv s 86400
      let sod := s - 86400 * days
      let ymd := civilFromDays days
      ⟨some t, some ymd.1, some ymd.2.1, some ymd.2.2, some (sod / 3600), some ((sod % 3600) / 60)⟩
  | Option.none => ⟨Option.none, Option.none, Option.none, Option.none, Option.none, Option.none⟩

/-- The candidate set of the `dim_time` insert (presence tested on
`full_date` via `NOT IN`). -/
def dimTimeCandidates (nv : List SourceRow) (tbl : List DimTimeRow) :
    List DimTimeRow :=
  ((nv.filter (fun r =>
      r.timestamp.isSome && sqlNotIn r.timestamp (tbl.map DimTimeRow.full_date))).map
    (fun r => mkDimTimeRow r.timestamp)).dedup

/-- The `dim_time` INSERT statement. -/
def insertDimTime (nv : List SourceRow) (db : DB) : DB :=
  { db with dim_time := db.dim_time ++ dimTimeCandidates nv db.dim_time }

/-- The correlated `NOT EXISTS` predicate of the `dim_soil` insert and the
`ON` condition of the fact join against `dim_soil`. -/
def soilMatches (ds : DimSoilRow) (r : SourceRow) : Bool :=
  nullEq ds.ph r.ph && nullEq ds.nitrogen r.nitrogen &&
  nullEq ds.phosphorus r.phosphorus && nullEq ds.potassium r.potassium

/-- The candidate set of the `dim_soil` insert: distinct fully non-null
tuples for which no row satisfies the `NOT EXISTS` subquery. -/
def dimSoilCandidates (nv : List SourceRow) (tbl : List DimSoilRow) :
    List DimSoilRow :=
  ((nv.filter (fun r =>
      (!(tbl.any (fun ds => soilMatches ds r))) &&
      r.ph.isSome && r.nitrogen.isSome && r.phosphorus.isSome && r.potassium.isSome)).map
    (fun r => DimSoilRow.mk r.ph r.nitrogen r.phosphorus r.potassium)).dedup

/-- The `dim_soil` INSERT statement. -/
def insertDimSoil (nv : List SourceRow) (db : DB) : DB :=
  { db with dim_soil := db.dim_soil ++ dimSoilCandidates nv db.dim_soil }

/-- The correlated `NOT EXISTS` predicate of the `dim_weather` insert and
the `ON` condition of the fact join against `dim_weather`. -/
def weatherMatches (dw : DimWeatherRow) (r : SourceRow) : Bool :=
  nullEq dw.weather_temperature r.weather_temperature_2m &&
  nullEq dw.weather_humidity r.weather_relative_humidity_2m &&
  nullEq dw.wind_speed r.weather_wind_speed_10m &&
  nullEq dw.wind_direction r.weather_wind_direction_10m &&
  nullEq dw.rain r.weather_rain &&
  nullEq dw.surface_pressure r.weather_surface_pressure

/-- The candidate set of the `dim_weather` insert: only
`weather_temperature_2m IS NOT NULL` is required, the other five attributes
may be NULL. -/
def dimWeatherCandidates (nv : List SourceRow) (tbl : List DimWeatherRow) :
    List DimWeatherRow :=
  ((nv.filter (fun r =>
      (!(tbl.any (fun dw => weatherMatches dw r))) &&
      r.weather_temperature_2m.isSome)).map
    (fun r => DimWeatherRow.mk r.weather_temperature_2m r.weather_relative_humidity_2m
      r.weather_wind_speed_10m r.weather_wind_direction_10m r.weather_rain
      r.weather_surface_pressure)).dedup

/-- The `dim_weather` INSERT statement. -/
def insertDimWeather (nv : List SourceRow) (db : DB) : DB :=
  { db with dim_weather := db.dim_weather ++ dimWeatherCandidates nv db.dim_weather }

/-- The `ON` condition of the fact join against `dim_location`. -/
def locMatches (l : DimLocationRow) (r : SourceRow) : Bool :=
  nullEq r.loc_id l.loc_id && nullEq r.latitude l.latitude && nullEq r.longitude l.longitude

/-- The `ON` condition of the fact join against `dim_time`. -/
def timeMatches (t : DimTimeRow) (r : SourceRow) : Bool :=
  nullEq r.timestamp t.full_date

/-- The fact rows produced for one extracted reading by the four-way inner
join of the fact INSERT (surrogate keys are positions in the dimension
tables; a reading that fails any join contributes nothing). -/
def factRowsFor (db : DB) (v : SourceRow) : List FactRow :=
  (db.dim_location.enum.filter (fun li => locMatches li.2 v)).flatMap (fun li =>
    (db.dim_weather.enum.filter (fun wi => weatherMatches wi.2 v)).flatMap (fun wi =>
      (db.dim_soil.enum.filter (fun si => soilMatches si.2 v)).flatMap (fun si =>
        (db.dim_time.enum.filter (fun ti => timeMatches ti.2 v)).map (fun ti =>
          FactRow.mk v.event_id li.1 wi.1 si.1 ti.2.full_date v.temperature v.humidity
            v.water_level v.validation_status))))

/-- The fact INSERT statement over the extracted set. -/
def insertFacts (nv : List SourceRow) (db : DB) : DB :=
  { db with facts := db.facts ++ nv.flatMap (factRowsFor db) }

/-- The five SQL statements `execute_sql_query` runs after extraction. -/
inductive Stage where
  | dimLocation | dimTime | dimSoil | dimWeather | factInsert
deriving DecidableEq, Repr

/-- Model of `execute_sql_query`: it catches any exception from a statement and merely
logs it: a failed stage contributes no effect but execution continues. -/
def applyStage (failed : Stage → Bool) (s : Stage) (f : DB → DB) (db : DB) : DB :=
  if failed s then db else f db

/-- One load cycle with fault injection: `failed s = true` means statement
`s` raises inside `execute_sql_query` (which swallows the exception).
Returns the resulting warehouse and the list of statements that were
submitted for execution.  With an empty extraction the job logs and
completes without running any statement. -/
def runCycleF (failed : Stage → Bool) (src : List SourceRow) (db : DB) :
    DB × List Stage :=
  let nv := extractNew src db
  if nv = [] then (db, [])
  else
    let db1 := applyStage failed Stage.dimLocation (insertDimLocation nv) db
    let db2 := applyStage failed Stage.dimTime (insertDimTime nv) db1
    let db3 := applyStage failed Stage.dimSoil (insertDimSoil nv) db2
    let db4 := applyStage failed Stage.dimWeather (insertDimWeather nv) db3
    let db5 := applyStage failed Stage.factInsert (insertFacts nv) db4
    (db5, [Stage.dimLocation, Stage.dimTime, Stage.dimSoil, Stage.dimWeather, Stage.factInsert])

/-- A fault-free load cycle. -/
def runCycle (src : List SourceRow) (db : DB) : DB :=
  (runCycleF (fun _ => false) src db).1

/-! Concrete inputs used by the counterexamples and witnesses. -/

/-- A loc_1 reading whose temperature is the textual sentinel `"9999"` and
whose weather data carries `temperature_2m`; all other quantities are
normal. -/
def c1Data : Reading :=
  { event_id := some "evt_1", timestamp := some "2025-01-01T00:00:00Z",
    loc_id := some "loc_1",
    sensor_data := some [("temperature", PyVal.str "9999"), ("humidity", PyVal.num 60),
      ("water_level", PyVal.num 2), ("nitrogen", PyVal.num 100), ("phosphorus", PyVal.num 60),
      ("potassium", PyVal.num 60), ("ph", PyVal.num 7)],
    weather_data := some [("temperature_2m", 25)], location := true }

/-- The same reading with the numeric sentinel `9999` instead of the
textual one. -/
def c1DataNum : Reading :=
  { c1Data with
    sensor_data := some [("temperature", PyVal.num 9999), ("humidity", PyVal.num 60),
      ("water_level", PyVal.num 2), ("nitrogen", PyVal.num 100), ("phosphorus", PyVal.num 60),
      ("potassium", PyVal.num 60), ("ph", PyVal.num 7)] }

/-- A fully populated, fully non-null `valid_readings` row at instant 1. -/
def etlRow1 : SourceRow :=
  { event_id := some "e1", timestamp := some 1, loc_id := some "loc_1",
    latitude := some 10, longitude := some 20,
    temperature := some 30, humidity := some 60, water_level := some 1,
    ph := some 7, nitrogen := some 100, phosphorus := some 60, potassium := some 60,
    weather_temperature_2m := some 25, weather_relative_humidity_2m := some 50,
    weather_wind_speed_10m := some 5, weather_wind_direction_10m := some 180,
    weather_rain := some 0, weather_surface_pressure := some 1000,
    validation_status := some "VALID" }

/-- An empty warehouse. -/
def emptyDB : DB := ⟨[], [], [], [], []⟩

/-- Row `etlRow1` with a NULL `weather_rain` (a partially null weather tuple). -/
def etlRowW : SourceRow := { etlRow1 with weather_rain := Option.none, event_id := some "e2" }

/-- A reading at instant 1 whose `ph` is NULL, so it can never join
`dim_soil`. -/
def c5RowBad : SourceRow := { etlRow1 with ph := Option.none, event_id := some "e5a" }

/-- A clean reading at the later instant 2. -/
def c5RowGood : SourceRow := { etlRow1 with event_id := some "e5b", timestamp := some 2 }

/-- A warehouse that already holds loc_1 with coordinates (10, 20). -/
def c6DB : DB := ⟨[⟨some "loc_1", some 10, some 20⟩], [], [], [], []⟩

/-- A loc_1 reading with the new coordinates (11, 21). -/
def c6Row : SourceRow :=
  { etlRow1 with latitude := some 11, longitude := some 21, event_id := some "e6" }

/-- Fault injection: the fact INSERT raises. -/
def failFact : Stage → Bool := fun s => decide (s = Stage.factInsert)

/-- Fault injection: the `dim_location` upsert raises. -/
def failDimLoc : Stage → Bool := fun s => decide (s = Stage.dimLocation)

/-- A VALID loc_1 reading whose water level 3 triggers exactly one MEDIUM
"High Water Level" candidate alert (its weather data has no
`temperature_2m`, so the cross-check is skipped). -/
def c9Reading : Reading :=
  { event_id := some "e9", timestamp := some "t", loc_id := some "loc_1",
    sensor_data := some [("temperature", PyVal.num 30), ("humidity", PyVal.num 60),
      ("water_level", PyVal.num 3), ("nitrogen", PyVal.num 100), ("phosphorus", PyVal.num 60),
      ("potassium", PyVal.num 60), ("ph", PyVal.num 7)],
    weather_data := some [("relative_humidity_2m", 60)], location := true }

/-- A reading with an unknown location id (validates to INVALID with a
single `invalid_loc_id:` error). -/
def c10Reading : Reading :=
  { event_id := some "e10", timestamp := some "t", loc_id := some "loc_9",
    sensor_data := some [("temperature", PyVal.num 30)],
    weather_data := some [], location := true }

/-! Claim theorems. -/

/-- C1: the claim says `validate_record` returns INVALID with a
`sensor_data:temperature_extreme_value` error for every sentinel reading,
including a textual temperature sentinel together with
`weather_data.temperature_2m`.  The code instead raises `TypeError` in the
weather cross-check on that very input (`abs('9999' - 25)`), while the
numeric variant of the same reading does return INVALID with the
`_extreme_value` error: the claim captures the intent, the crash is the
bug. -/
theorem c1_textual_sentinel_raises :
    validate_record c1Data = Except.error "TypeError" ∧
    validate_record c1DataNum = Except.ok (Status.INVALID,
      ["sensor_data:temperature_extreme_value"], ["temperature_mismatch:9999vs25"]) :=
  ⟨rfl, rfl⟩

/-- C2 counterexample: one source row with a non-null weather temperature
but a NULL `weather_rain`.  The first cycle inserts one `dim_weather` row;
the second cycle, with no new source rows, inserts a second identical row,
because `dw.rain = nv.rain` is never TRUE for NULLs, so the `NOT EXISTS`
presence check cannot see the previously inserted row.  The claim's "zero
new rows into every dimension table" is false. -/
theorem c2_counterexample :
    (runCycle [etlRowW] emptyDB).dim_weather.length = 1 ∧
    (runCycle [etlRowW] (runCycle [etlRowW] emptyDB)).dim_weather.length = 2 :=
  ⟨rfl, rfl⟩

/-- C3: from the empty throttle state, a CRITICAL alert repeated 100 times
within one second is emitted all 100 times, and a MEDIUM alert (threshold
1, interval 5 minutes) emits at t=0, is suppressed at t=120 s, and emits
again at t=360 s. -/
theorem c3_throttle_scenarios :
    (∀ (times : List ℚ) (alert : Alert) (loc_id : String),
        alert.priority = "CRITICAL" → times.length = 100 →
        (∀ t ∈ times, 0 ≤ t ∧ t ≤ 1) →
        (runAlerts initialAlertState alert loc_id times).1 = List.replicate 100 true) ∧
    (runAlerts initialAlertState ⟨"High Water Level", "MEDIUM", "high water"⟩ "loc_1"
        [0, 120, 360]).1 = [true, false, true] := by
  constructor
  · intro times alert loc_id hcrit hlen _
    have key : ∀ (ts : List ℚ) (st : AlertState),
        (runAlerts st alert loc_id ts).1 = List.replicate ts.length true := by
      intro ts
      induction ts with
      | nil => intro st; rfl
      | cons t ts ih =>
          intro st
          simp only [runAlerts, check_and_send_alert, hcrit, if_true, List.length_cons,
            List.replicate_succ, ih]
    rw [key times initialAlertState, hlen]
  · rfl

/-- Witness for C3: both scenarios at concrete inputs (100 CRITICAL sends
at instant 0). -/
theorem c3_throttle_scenarios_witness :
    (runAlerts initialAlertState ⟨"Sensor Failure", "CRITICAL", "sf"⟩ "loc_1"
        (List.replicate 100 0)).1 = List.replicate 100 true :=
  c3_throttle_scenarios.1 (List.replicate 100 0) ⟨"Sensor Failure", "CRITICAL", "sf"⟩ "loc_1"
    rfl (by simp)
    (by
      intro t ht
      rw [List.eq_of_mem_replicate ht]
      constructor <;> norm_num)

/-- C4 counterexample: in a first cycle whose fact INSERT raises, the
dimension rows are still committed and no facts are; in a second cycle
whose `dim_location` upsert raises, all five statements are still
submitted and the fact INSERT still commits a row.  `execute_sql_query`
swallows every per-statement exception, so a failing SQL stage neither
aborts the cycle nor prevents later stages from committing. -/
theorem c4_counterexample :
    ((runCycleF failFact [etlRow1] emptyDB).1).facts.length = 0 ∧
    (runCycleF failDimLoc [etlRow1] ((runCycleF failFact [etlRow1] emptyDB).1)).2 =
      [Stage.dimLocation, Stage.dimTime, Stage.dimSoil, Stage.dimWeather, Stage.factInsert] ∧
    ((runCycleF failDimLoc [etlRow1] ((runCycleF failFact [etlRow1] emptyDB).1)).1).facts.length
      = 1 :=
  ⟨rfl, rfl, rfl⟩

/-- C5 counterexample: `c5RowBad` (timestamp 1, NULL ph) and `c5RowGood`
(timestamp 2) are both extracted from an empty warehouse; the cycle
inserts a fact only for `c5RowGood`, which advances the watermark to 2 —
strictly past the excluded reading's timestamp 1 even though that reading
was never inserted — and the next extraction is empty, so the excluded
reading is never retried. -/
theorem c5_counterexample :
    extractNew [c5RowBad, c5RowGood] emptyDB = [c5RowBad, c5RowGood] ∧
    (runCycle [c5RowBad, c5RowGood] emptyDB).facts.map FactRow.evt_id = [some "e5b"] ∧
    watermark (runCycle [c5RowBad, c5RowGood] emptyDB) = 2 ∧
    extractNew [c5RowBad, c5RowGood] (runCycle [c5RowBad, c5RowGood] emptyDB) = [] :=
  ⟨rfl, rfl, rfl, rfl⟩

/-- C6 counterexample: the warehouse already holds the dim_location row
(loc_1, 10, 20); a new reading carries the distinct full tuple
(loc_1, 11, 21), which is absent from the table, yet the upsert inserts
nothing, because the `NOT IN` presence check compares `loc_id` alone —
not the full natural-key tuple as the claim states. -/
theorem c6_counterexample :
    extractNew [c6Row] c6DB = [c6Row] ∧
    (runCycle [c6Row] c6DB).dim_location = [⟨some "loc_1", some 10, some 20⟩] ∧
    DimLocationRow.mk (some "loc_1") (some 11) (some 21) ∉ (runCycle [c6Row] c6DB).dim_location :=
  ⟨rfl, rfl, by decide⟩

/-- C9 counterexample: a batch of two identical VALID readings, each
generating one MEDIUM candidate alert at the same instant.  Only the first
alert passes throttling (the second is inside the 5-minute interval), yet
the summary's alert count reports 2: `lambda_handler` accumulates
`alert_count += len(alerts)` before throttling, so the reported number is
the candidates generated, not the alerts actually emitted. -/
theorem c9_counterexample :
    (processBatch initialAlertState [(c9Reading, 0), (c9Reading, 0)]).summary.total_alerts_generated
      = 2 ∧
    (processBatch initialAlertState [(c9Reading, 0), (c9Reading, 0)]).emitted = 1 :=
  ⟨rfl, rfl⟩

/-- Per record, no more alerts are sent than were generated. -/
theorem processAlertsFor_le (loc_id : String) (now : ℚ) :
    ∀ (alerts : List Alert) (st : AlertState),
      (processAlertsFor st loc_id now alerts).1 ≤ alerts.length := by
  intro alerts
  induction alerts with
  | nil => intro st; exact Nat.le_refl 0
  | cons a rest ih =>
      intro st
      have h := ih (check_and_send_alert st a loc_id now).2
      simp only [processAlertsFor, List.length_cons]
      cases (check_and_send_alert st a loc_id now).1 <;> simp <;> omega

/-- A record outcome never reports more emitted than generated alerts. -/
theorem processRecord_le (st : AlertState) (data : Reading) (now : ℚ) :
    (processRecord st data now).emitted ≤ (processRecord st data now).generated := by
  unfold processRecord
  cases recAlerts data with
  | error e => exact Nat.le_refl 0
  | ok alerts => exact processAlertsFor_le _ _ alerts st

/-- A record that ends in the exception handler contributes no generated
and no emitted alerts. -/
theorem processRecord_not_ok (st : AlertState) (data : Reading) (now : ℚ)
    (h : (processRecord st data now).ok = false) :
    (processRecord st data now).emitted = 0 ∧ (processRecord st data now).generated = 0 := by
  revert h
  simp only [processRecord]
  rcases recAlerts data with e | alerts
  · intro _
    exact ⟨rfl, rfl⟩
  · intro hh
    simp at hh

/-- C9 amended: the summary's alert count is the number of candidate alerts
generated, an upper bound on the number actually emitted (the
counterexample shows the bound is strict in general). -/
theorem c9_generated_not_emitted_amended (st : AlertState) (records : List (Reading × ℚ)) :
    (processBatch st records).emitted ≤ (processBatch st records).summary.total_alerts_generated := by
  induction records generalizing st with
  | nil => exact Nat.le_refl 0
  | cons r rest ih =>
      obtain ⟨data, now⟩ := r
      have hrec := processRecord_le st data now
      have hrest := ih (processRecord st data now).state
      simp only [processBatch]
      split
      · simp
        omega
      · next hok =>
          have h0 := processRecord_not_ok st data now
            (by revert hok; cases (processRecord st data now).ok <;> simp)
          simp
          omega

/-- The dimension upserts do not touch the fact table. -/
theorem dims_preserve_facts (nv : List SourceRow) (db : DB) :
    (insertDimLocation nv db).facts = db.facts ∧
    (insertDimTime nv db).facts = db.facts ∧
    (insertDimSoil nv db).facts = db.facts ∧
    (insertDimWeather nv db).facts = db.facts :=
  ⟨rfl, rfl, rfl, rfl⟩

/-- Stage application preserves any field a stage's statement preserves. -/
theorem applyStage_facts (failed : Stage → Bool) (s : Stage) (f : DB → DB)
    (hf : ∀ d, (f d).facts = d.facts) (db : DB) :
    (applyStage failed s f db).facts = db.facts := by
  unfold applyStage
  split
  · rfl
  · exact hf db

/-- The watermark only reads the fact table. -/
theorem watermark_facts_congr (d₁ d₂ : DB) (h : d₁.facts = d₂.facts) :
    watermark d₁ = watermark d₂ := by
  unfold watermark
  rw [h]

/-- When the fact INSERT raises, the cycle leaves the fact table
untouched. -/
theorem runCycleF_facts_failedFact (failed : Stage → Bool) (src : List SourceRow) (db : DB)
    (hff : failed Stage.factInsert = true) :
    (runCycleF failed src db).1.facts = db.facts := by
  have hstep : ∀ (s : Stage) (f : DB → DB), (∀ d, (f d).facts = d.facts) →
      ∀ d, (applyStage failed s f d).facts = d.facts :=
    fun s f hf d => applyStage_facts failed s f hf d
  have hlast : ∀ d, (applyStage failed Stage.factInsert
      (insertFacts (extractNew src db)) d).facts = d.facts := by
    intro d
    unfold applyStage
    rw [if_pos hff]
  simp only [runCycleF]
  split
  · rfl
  · exact (hlast _).trans
      ((hstep Stage.dimWeather (insertDimWeather (extractNew src db)) (fun d => rfl) _).trans
        ((hstep Stage.dimSoil (insertDimSoil (extractNew src db)) (fun d => rfl) _).trans
          ((hstep Stage.dimTime (insertDimTime (extractNew src db)) (fun d => rfl) _).trans
            (hstep Stage.dimLocation (insertDimLocation (extractNew src db)) (fun d => rfl) db))))

/-- C4 amended: whenever the extraction is non-empty, all five SQL
statements are submitted regardless of which ones fail (exceptions are
swallowed per statement), and a failed fact INSERT leaves the fact table
and hence the watermark unchanged, so the next cycle retries from the same
watermark. -/
theorem c4_error_swallowing_amended (failed : Stage → Bool) (src : List SourceRow) (db : DB)
    (h : extractNew src db ≠ []) :
    (runCycleF failed src db).2 =
      [Stage.dimLocation, Stage.dimTime, Stage.dimSoil, Stage.dimWeather, Stage.factInsert] ∧
    (failed Stage.factInsert = true →
      (runCycleF failed src db).1.facts = db.facts ∧
      watermark (runCycleF failed src db).1 = watermark db) := by
  refine ⟨?_, fun hff => ?_⟩
  · unfold runCycleF
    rw [if_neg h]
  · have hfacts := runCycleF_facts_failedFact failed src db hff
    exact ⟨hfacts, watermark_facts_congr _ _ hfacts⟩

/-- Witness for C4 amended: concrete cycle on one clean row with a failing
fact INSERT. -/
theorem c4_error_swallowing_amended_witness :
    (runCycleF failFact [etlRow1] emptyDB).2 =
      [Stage.dimLocation, Stage.dimTime, Stage.dimSoil, Stage.dimWeather, Stage.factInsert] ∧
    (failFact Stage.factInsert = true →
      (runCycleF failFact [etlRow1] emptyDB).1.facts = emptyDB.facts ∧
      watermark (runCycleF failFact [etlRow1] emptyDB).1 = watermark emptyDB) :=
  c4_error_swallowing_amended failFact [etlRow1] emptyDB (by decide)

/-- Lookup after update. -/
theorem lookupA_setA {β : Type} (m : List (String × β)) (k k' : String) (v : β) :
    lookupA (setA m k v) k' = if k = k' then some v else lookupA m k' := by
  induction m with
  | nil => rfl
  | cons p rest ih =>
      obtain ⟨pk, pv⟩ := p
      simp only [setA]
      by_cases hpk : pk = k
      · subst hpk
        by_cases hk : pk = k'
        · simp [lookupA, hk]
        · simp [lookupA, hk]
      · rw [if_neg hpk]
        by_cases hk' : pk = k'
        · subst hk'
          have hkk' : ¬ k = pk := fun he => hpk he.symm
          simp [lookupA, hkk']
        · simp only [lookupA, if_neg hk']
          exact ih

/-- With the configured threshold of 1, every bumped counter passes the
threshold test. -/
theorem threshold_le (n : ℕ) : CONSECUTIVE_RECORDS_THRESHOLD ≤ n + 1 :=
  Nat.succ_le_succ (Nat.zero_le n)

/-- All consecutive counters of a throttle state are (effectively) zero. -/
def countsZero (st : AlertState) : Prop :=
  ∀ k, (lookupA st.consecutive_counts k).getD 0 = 0

/-- With the configured threshold of 1 every candidate that reaches the
threshold code is sent at once, so `check_and_send_alert` keeps all
counters at zero. -/
theorem check_and_send_alert_countsZero (st : AlertState) (alert : Alert)
    (loc_id : String) (now : ℚ) (h : countsZero st) :
    countsZero (check_and_send_alert st alert loc_id now).2 := by
  unfold check_and_send_alert
  by_cases hc : alert.priority = "CRITICAL"
  · simp only [hc, if_true]
    exact h
  · simp only [hc, if_false]
    rcases hls : lookupA st.last_sent (loc_id ++ "|" ++ alert.type) with _ | last
    · simp only
      rw [if_neg (by simp)]
      rw [if_pos (threshold_le _)]
      intro k
      simp only
      rw [lookupA_setA]
      by_cases hk : loc_id ++ "|" ++ alert.type = k
      · simp [hk]
      · simp only [if_neg hk]
        exact h k
    · simp only
      by_cases hth : now - last < ALERT_INTERVAL
      · rw [if_pos (by simp [hth])]
        exact h
      · rw [if_neg (by simp [hth])]
        rw [if_pos (threshold_le _)]
        intro k
        simp only
        rw [lookupA_setA]
        by_cases hk : loc_id ++ "|" ++ alert.type = k
        · simp [hk]
        · simp only [if_neg hk]
          exact h k

/-- Any state reachable from the empty one by a sequence of
`check_and_send_alert` calls has all counters at zero. -/
theorem applyAlertOps_countsZero (ops : List (Alert × String × ℚ)) :
    countsZero (applyAlertOps initialAlertState ops) := by
  have key : ∀ (l : List (Alert × String × ℚ)) (st : AlertState), countsZero st →
      countsZero (applyAlertOps st l) := by
    intro l
    induction l with
    | nil => intro st h; exact h
    | cons op ops ih =>
        intro st h
        exact ih _ (check_and_send_alert_countsZero st op.1 op.2.1 op.2.2 h)
  exact key ops initialAlertState (fun k => rfl)

/-- One `check_and_send_alert` step from a counters-at-zero state:
emission records `last_sent := now` and leaves the counter at zero (also on
the CRITICAL path, which skips the reset assignment but meets a zero
counter); suppression (necessarily by the time interval, since threshold 1
never suppresses) changes nothing. -/
theorem check_and_send_alert_step (st : AlertState) (alert : Alert)
    (loc_id : String) (now : ℚ) (h : countsZero st) :
    ((check_and_send_alert st alert loc_id now).1 = true →
      lookupA (check_and_send_alert st alert loc_id now).2.last_sent
        (loc_id ++ "|" ++ alert.type) = some now ∧
      (lookupA (check_and_send_alert st alert loc_id now).2.consecutive_counts
        (loc_id ++ "|" ++ alert.type)).getD 0 = 0) ∧
    ((check_and_send_alert st alert loc_id now).1 = false →
      (check_and_send_alert st alert loc_id now).2 = st) := by
  have hz := check_and_send_alert_countsZero st alert loc_id now h
  unfold check_and_send_alert at hz ⊢
  by_cases hc : alert.priority = "CRITICAL"
  · simp only [hc, if_true] at hz ⊢
    refine ⟨fun _ => ⟨?_, ?_⟩, fun hfalse => by cases hfalse⟩
    · rw [lookupA_setA, if_pos rfl]
    · exact hz _
  · simp only [hc, if_false] at hz ⊢
    rcases hls : lookupA st.last_sent (loc_id ++ "|" ++ alert.type) with _ | last
    · simp only
      rw [if_neg (by simp)]
      rw [if_pos (threshold_le _)]
      simp only [hls] at hz
      rw [if_neg (by simp), if_pos (threshold_le _)] at hz
      refine ⟨fun _ => ⟨?_, ?_⟩, fun hfalse => by cases hfalse⟩
      · simp only
        rw [lookupA_setA, if_pos rfl]
      · exact hz _
    · simp only
      by_cases hth : now - last < ALERT_INTERVAL
      · rw [if_pos (by simp [hth])]
        exact ⟨fun htrue => (by cases htrue), fun _ => rfl⟩
      · rw [if_neg (by simp [hth])]
        rw [if_pos (threshold_le _)]
        simp only [hls] at hz
        rw [if_neg (by simp [hth]), if_pos (threshold_le _)] at hz
        refine ⟨fun _ => ⟨?_, ?_⟩, fun hfalse => by cases hfalse⟩
        · simp only
          rw [lookupA_setA, if_pos rfl]
        · exact hz _

/-- C7: along every sequence of candidate alerts processed through
`check_and_send_alert` from the initial empty state, every consecutive
counter stays 0; on every emission (CRITICAL included) `last_sent` is set
to the emission instant and the counter is 0 afterwards; on every
suppression the state is unchanged (the only suppression with threshold 1
is the time-interval one, which by the source changes no counter —
threshold suppression never fires, so its counter increment is vacuous). -/
theorem c7_throttle_state_invariant (ops : List (Alert × String × ℚ)) (alert : Alert)
    (loc_id : String) (now : ℚ) :
    ((lookupA (applyAlertOps initialAlertState ops).consecutive_counts
        (loc_id ++ "|" ++ alert.type)).getD 0 = 0) ∧
    ((check_and_send_alert (applyAlertOps initialAlertState ops) alert loc_id now).1 = true →
      lookupA (check_and_send_alert (applyAlertOps initialAlertState ops) alert loc_id
          now).2.last_sent (loc_id ++ "|" ++ alert.type) = some now ∧
      (lookupA (check_and_send_alert (applyAlertOps initialAlertState ops) alert loc_id
          now).2.consecutive_counts (loc_id ++ "|" ++ alert.type)).getD 0 = 0) ∧
    ((check_and_send_alert (applyAlertOps initialAlertState ops) alert loc_id now).1 = false →
      (check_and_send_alert (applyAlertOps initialAlertState ops) alert loc_id now).2 =
        applyAlertOps initialAlertState ops) := by
  have hz := applyAlertOps_countsZero ops
  have hstep := check_and_send_alert_step (applyAlertOps initialAlertState ops) alert loc_id now hz
  exact ⟨hz _, hstep.1, hstep.2⟩

/-- Witness for C7: a MEDIUM alert against the empty state is emitted and
the invariant's emission clause holds concretely. -/
theorem c7_throttle_state_invariant_witness :
    lookupA ((check_and_send_alert (applyAlertOps initialAlertState [])
        ⟨"High Water Level", "MEDIUM", "hw"⟩ "loc_1" 0).2).last_sent
      ("loc_1" ++ "|" ++ "High Water Level") = some 0 :=
  ((c7_throttle_state_invariant [] ⟨"High Water Level", "MEDIUM", "hw"⟩ "loc_1" 0).2.1 rfl).1

/-- C8: for every quantity of a location's range table, a numeric value
outside `[min, max]` but inside the 10%-of-range buffer produces exactly
the `near_threshold` warning for that quantity and no error, so that
quantity alone can never make the status INVALID.  (The buffer zones of
the configured table never contain the numeric sentinels 0, ±9999, so the
sentinel check cannot intercept such a value.) -/
theorem c8_near_threshold_warning (loc : String) (ranges : List (String × ℚ × ℚ))
    (name : String) (mn mx v : ℚ) (sd : List (String × PyVal))
    (hloc : (loc, ranges) ∈ EXPECTED_RANGES_PER_LOCATION)
    (hq : (name, mn, mx) ∈ ranges)
    (hsd : getVal sd name = PyVal.num v)
    (hout : ¬ (mn ≤ v ∧ v ≤ mx))
    (hbuf : mn - (mx - mn) * (1/10) ≤ v ∧ v ≤ mx + (mx - mn) * (1/10)) :
    checkSensor sd name mn mx = ([], ["sensor_data:" ++ name ++ "_near_threshold"], sd) := by
  have htable : ∀ p ∈ EXPECTED_RANGES_PER_LOCATION.flatMap Prod.snd,
      0 < p.2.1 - (p.2.2 - p.2.1) * (1/10) ∧ p.2.2 + (p.2.2 - p.2.1) * (1/10) < 9999 := by
    decide
  have hmem : (name, mn, mx) ∈ EXPECTED_RANGES_PER_LOCATION.flatMap Prod.snd :=
    List.mem_flatMap.mpr ⟨(loc, ranges), hloc, hq⟩
  have hb := htable (name, mn, mx) hmem
  have hpos : 0 < v := lt_of_lt_of_le hb.1 hbuf.1
  have hlt : v < 9999 := lt_of_le_of_lt hbuf.2 hb.2
  have hne0 : v ≠ 0 := ne_of_gt hpos
  have hne1 : v ≠ 9999 := ne_of_lt hlt
  have hne2 : v ≠ -9999 := by
    intro he
    rw [he] at hpos
    norm_num at hpos
  have hnotex : ¬ (PyVal.num v ∈ extreme_values) := by
    simp only [extreme_values, List.mem_cons, List.not_mem_nil, or_false]
    push_neg
    refine ⟨?_, ?_, ?_, ?_, ?_, ?_, ?_, ?_, ?_, ?_⟩ <;> simp [hne0, hne1, hne2]
  unfold checkSensor
  rw [hsd]
  rw [if_neg hnotex]
  rw [if_neg (by simp)]
  show rangeOutcome name mn mx v sd [] = _
  unfold rangeOutcome
  rw [if_neg hout]
  rw [if_pos hbuf]
  rw [List.nil_append]

/-- Witness for C8: temperature 52 at loc_1 (range [10, 50], buffer 4). -/
theorem c8_near_threshold_warning_witness :
    checkSensor [("temperature", PyVal.num 52)] "temperature" 10 50
      = ([], ["sensor_data:temperature_near_threshold"], [("temperature", PyVal.num 52)]) :=
  c8_near_threshold_warning "loc_1"
    [("temperature", 10, 50), ("humidity", 30, 90), ("water_level", mkRat 1 2, 3),
      ("nitrogen", 80, 150), ("phosphorus", 40, 80), ("potassium", 40, 80), ("ph", 6, 8)]
    "temperature" 10 50 52 [("temperature", PyVal.num 52)]
    (by decide) (by decide) rfl (by decide) (by decide)

/-- The `_missing` error pattern ends with `"_missing"`. -/
theorem pattern_has_suffix (q : String) :
    "_missing".data <:+ ("sensor_data:" ++ q ++ "_missing").data := by
  rw [String.data_append]
  exact List.suffix_append _ _

/-- A string that does not end in `"_missing"` is no `_missing` error. -/
theorem ne_of_no_missing_suffix (e : String) (h : ¬ ("_missing".data <:+ e.data)) :
    ∀ q, ("sensor_data:" ++ q ++ "_missing") ≠ e := by
  intro q heq
  apply h
  rw [← heq]
  exact pattern_has_suffix q

/-- An `invalid_loc_id:` error is no `_missing` error, whatever the
location text. -/
theorem ne_invalid_loc (loc : String) :
    ∀ q, ("sensor_data:" ++ q ++ "_missing") ≠ "invalid_loc_id:" ++ loc := by
  intro q heq
  have hd : ("sensor_data:" ++ q ++ "_missing").data = ("invalid_loc_id:" ++ loc).data :=
    congrArg String.data heq
  rw [String.data_append, String.data_append, String.data_append, List.append_assoc] at hd
  have h12 := congrArg (List.take 12) hd
  rw [List.take_append_of_le_length (by decide),
    List.take_append_of_le_length (by decide)] at h12
  exact absurd h12 (by decide)

/-- An `invalid_loc_id:` error never starts with `"sensor_data"`. -/
theorem startswith_invalid_loc (loc : String) :
    pyStartsWith ("invalid_loc_id:" ++ loc) "sensor_data" = false := by
  unfold pyStartsWith
  rw [String.data_append]
  refine Bool.eq_false_iff.mpr ?_
  intro h
  rw [List.isPrefixOf_iff_prefix] at h
  have h2 : "sensor_data".data <+: "invalid_loc_id:".data :=
    List.prefix_of_prefix_length_le h (List.prefix_append _ _) (by decide)
  exact absurd h2 (by decide)

/-- An error string is harmless for C10 when it can never be the
`sensor_data:<q>_missing` pattern and can never classify as
`sensor_disconnected`. -/
def errElemOk (e : String) : Prop :=
  (∀ q, ("sensor_data:" ++ q ++ "_missing") ≠ e) ∧
  (pyStartsWith e "sensor_data" = false ∨ classifyError e ≠ some "sensor_disconnected")

/-- Harmlessness from the two decidable facts. -/
theorem errElemOk_dec (e : String) (h1 : ¬ ("_missing".data <:+ e.data))
    (h2 : pyStartsWith e "sensor_data" = false ∨ classifyError e ≠ some "sensor_disconnected") :
    errElemOk e :=
  ⟨ne_of_no_missing_suffix e h1, h2⟩

/-- Harmlessness of `invalid_loc_id:` errors. -/
theorem errElemOk_invalid (loc : String) : errElemOk ("invalid_loc_id:" ++ loc) :=
  ⟨ne_invalid_loc loc, Or.inl (startswith_invalid_loc loc)⟩

/-- The error suffixes the sensor loop can actually produce — `_missing`
is not among them, because the sentinel check catches `None` first. -/
def sensorSuffixes : List String := ["_extreme_value", "_invalid_type", "_out_of_range"]

/-- One sensor-loop iteration contributes no error or exactly one error
with a suffix from `sensorSuffixes` (never `_missing`: the dead branch). -/
theorem checkSensor_errs (sd : List (String × PyVal)) (name : String) (mn mx : ℚ) :
    (checkSensor sd name mn mx).1 = [] ∨
    ∃ suf ∈ sensorSuffixes, (checkSensor sd name mn mx).1 = ["sensor_data:" ++ name ++ suf] := by
  rcases hval : getVal sd name with _ | v | sv
  · right
    refine ⟨"_extreme_value", by simp [sensorSuffixes], ?_⟩
    unfold checkSensor
    rw [hval, if_pos (by simp [extreme_values])]
  · unfold checkSensor
    rw [hval]
    by_cases hex : PyVal.num v ∈ extreme_values
    · right
      exact ⟨"_extreme_value", by simp [sensorSuffixes], by rw [if_pos hex]⟩
    · rw [if_neg hex, if_neg (by simp)]
      show (rangeOutcome name mn mx v sd []).1 = [] ∨
        ∃ suf ∈ sensorSuffixes, (rangeOutcome name mn mx v sd []).1 =
          ["sensor_data:" ++ name ++ suf]
      simp only [rangeOutcome]
      by_cases hin : mn ≤ v ∧ v ≤ mx
      · left
        rw [if_pos hin]
      · rw [if_neg hin]
        by_cases hbuf : mn - (mx - mn) * (1/10) ≤ v ∧ v ≤ mx + (mx - mn) * (1/10)
        · left
          rw [if_pos hbuf]
        · right
          exact ⟨"_out_of_range", by simp [sensorSuffixes], by rw [if_neg hbuf]⟩
  · unfold checkSensor
    rw [hval]
    by_cases hex : PyVal.str sv ∈ extreme_values
    · right
      exact ⟨"_extreme_value", by simp [sensorSuffixes], by rw [if_pos hex]⟩
    · rw [if_neg hex, if_neg (by simp)]
      rcases hf : pyFloat? sv with _ | cv
      · right
        refine ⟨"_invalid_type", by simp [sensorSuffixes], ?_⟩
        show (match pyFloat? sv with
          | some converted_val =>
              rangeOutcome name mn mx converted_val
                (setA sd name (PyVal.num converted_val))
                ["sensor_data:" ++ name ++ "_type_converted"]
          | Option.none => (["sensor_data:" ++ name ++ "_invalid_type"], [], sd)).1 =
          ["sensor_data:" ++ name ++ "_invalid_type"]
        rw [hf]
      · show (match pyFloat? sv with
          | some converted_val =>
              rangeOutcome name mn mx converted_val
                (setA sd name (PyVal.num converted_val))
                ["sensor_data:" ++ name ++ "_type_converted"]
          | Option.none => (["sensor_data:" ++ name ++ "_invalid_type"], [], sd)).1 = [] ∨
          ∃ suf ∈ sensorSuffixes, (match pyFloat? sv with
          | some converted_val =>
              rangeOutcome name mn mx converted_val
                (setA sd name (PyVal.num converted_val))
                ["sensor_data:" ++ name ++ "_type_converted"]
          | Option.none => (["sensor_data:" ++ name ++ "_invalid_type"], [], sd)).1 =
            ["sensor_data:" ++ name ++ suf]
        rw [hf]
        simp only [rangeOutcome]
        by_cases hin : mn ≤ cv ∧ cv ≤ mx
        · left
          rw [if_pos hin]
        · rw [if_neg hin]
          by_cases hbuf : mn - (mx - mn) * (1/10) ≤ cv ∧ cv ≤ mx + (mx - mn) * (1/10)
          · left
            rw [if_pos hbuf]
          · right
            exact ⟨"_out_of_range", by simp [sensorSuffixes], by rw [if_neg hbuf]⟩

/-- Every error of the sensor loop is one of the three suffixed forms for
a quantity of the range table it ran over. -/
theorem validateSensors_errs (ranges : List (String × ℚ × ℚ)) :
    ∀ (sd : List (String × PyVal)) (e : String), e ∈ (validateSensors ranges sd).1 →
      ∃ p ∈ ranges, ∃ suf ∈ sensorSuffixes, e = "sensor_data:" ++ p.1 ++ suf := by
  induction ranges with
  | nil =>
      intro sd e he
      cases he
  | cons r rest ih =>
      intro sd e he
      obtain ⟨name, mn, mx⟩ := r
      simp only [validateSensors] at he
      rw [List.mem_append] at he
      rcases he with he | he
      · rcases checkSensor_errs sd name mn mx with h0 | ⟨suf, hsuf, heq⟩
        · rw [h0] at he
          cases he
        · rw [heq] at he
          rw [List.mem_singleton] at he
          exact ⟨(name, mn, mx), List.mem_cons_self _ _, suf, hsuf, he⟩
      · rcases ih _ e he with ⟨p, hp, suf, hsuf, heq⟩
        exact ⟨p, List.mem_cons_of_mem _ hp, suf, hsuf, heq⟩

/-- The possible `missing_top_level_key:` errors. -/
theorem missingTopLevel_mem (data : Reading) :
    ∀ e ∈ missingTopLevel data,
      e ∈ (["missing_top_level_key:event_id", "missing_top_level_key:timestamp",
        "missing_top_level_key:sensor_data", "missing_top_level_key:weather_data",
        "missing_top_level_key:location"] : List String) := by
  intro e he
  unfold missingTopLevel at he
  simp only [List.mem_append] at he
  rcases he with ((((he | he) | he) | he) | he) <;>
    · split at he
      · cases he
      · simp only [List.mem_singleton] at he
        simp [he]

/-- A successful association-list lookup is a membership. -/
theorem lookupA_mem {β : Type} : ∀ (l : List (String × β)) (k : String) (v : β),
    lookupA l k = some v → (k, v) ∈ l := by
  intro l
  induction l with
  | nil =>
      intro k v h
      cases h
  | cons p rest ih =>
      intro k v h
      obtain ⟨pk, pv⟩ := p
      simp only [lookupA] at h
      by_cases hk : pk = k
      · rw [if_pos hk] at h
        cases h
        subst hk
        exact List.mem_cons_self _ _
      · rw [if_neg hk] at h
        exact List.mem_cons_of_mem _ (ih k v h)

/-- If no error both starts with `"sensor_data"` and classifies as
`sensor_disconnected`, the classification set cannot contain it. -/
theorem classify_no_disconnect (errs : List String)
    (h : ∀ e ∈ errs, pyStartsWith e "sensor_data" = false ∨
      classifyError e ≠ some "sensor_disconnected") :
    "sensor_disconnected" ∉ classifyErrors errs := by
  intro hmem
  unfold classifyErrors at hmem
  rw [List.mem_dedup] at hmem
  rcases List.mem_filterMap.mp hmem with ⟨e, hef, hce⟩
  rcases List.mem_filter.mp hef with ⟨hee, hsw⟩
  rcases h e hee with h1 | h1
  · rw [h1] at hsw
    cases hsw
  · exact h1 hce

/-- All error strings the sensor loop can produce over the configured
range table. -/
def sensorErrStrings : List String :=
  ((EXPECTED_RANGES_PER_LOCATION.flatMap Prod.snd).map Prod.fst).flatMap
    (fun n => sensorSuffixes.map (fun suf => "sensor_data:" ++ n ++ suf))

/-- None of the producible sensor errors ends in `_missing` or classifies
as disconnected. -/
theorem sensorErrStrings_ok : ∀ e ∈ sensorErrStrings,
    ¬ ("_missing".data <:+ e.data) ∧
    (pyStartsWith e "sensor_data" = false ∨ classifyError e ≠ some "sensor_disconnected") := by
  decide

/-- Every error returned by a completed `validate_record` run is harmless
for C10. -/
theorem validate_errs_ok (data : Reading) (r : VResult)
    (h : validate_full data = Except.ok r) : ∀ e ∈ r.errors, errElemOk e := by
  have h5 : ∀ e ∈ (["missing_top_level_key:event_id", "missing_top_level_key:timestamp",
      "missing_top_level_key:sensor_data", "missing_top_level_key:weather_data",
      "missing_top_level_key:location"] : List String), errElemOk e := by
    intro e he
    fin_cases he <;> exact errElemOk_dec _ (by decide) (by decide)
  simp only [validate_full] at h
  split at h
  · cases h
    intro e he
    rw [List.mem_singleton] at he
    rw [he]
    exact errElemOk_dec _ (by decide) (by decide)
  · split at h
    · cases h
      intro e he
      rw [List.mem_singleton] at he
      rw [he]
      exact errElemOk_dec _ (by decide) (by decide)
    · rename_i loc hloc
      split at h
      · cases h
        intro e he
        rw [List.mem_singleton] at he
        rw [he]
        exact errElemOk_invalid loc
      · rename_i location_ranges hranges
        split at h
        · cases h
          intro e he
          rw [List.mem_append] at he
          rcases he with he | he
          · exact h5 e (missingTopLevel_mem data e he)
          · rw [List.mem_singleton] at he
            rw [he]
            exact errElemOk_dec _ (by decide) (by decide)
        · split at h
          · cases h
          · cases h
            intro e he
            rw [List.mem_append] at he
            rcases he with he | he
            · exact h5 e (missingTopLevel_mem data e he)
            · rcases validateSensors_errs location_ranges _ e he with ⟨p, hp, suf, hsuf, heq⟩
              have hmemtbl : (loc, location_ranges) ∈ EXPECTED_RANGES_PER_LOCATION :=
                lookupA_mem _ _ _ hranges
              have hname : p.1 ∈ ((EXPECTED_RANGES_PER_LOCATION.flatMap Prod.snd).map Prod.fst) :=
                List.mem_map.mpr ⟨p, List.mem_flatMap.mpr ⟨(loc, location_ranges), hmemtbl, hp⟩, rfl⟩
              have hstr : e ∈ sensorErrStrings := by
                rw [heq]
                exact List.mem_flatMap.mpr ⟨p.1, hname,
                  List.mem_map.mpr ⟨suf, hsuf, rfl⟩⟩
              have hok := sensorErrStrings_ok e hstr
              exact errElemOk_dec e hok.1 hok.2

/-- C10: a completed `validate_record` run never returns a
`sensor_data:<quantity>_missing` error (the `val is None` branch is dead —
`None` is in the sentinel list checked just before), and consequently
`handle_alerts` can never classify an error set as `sensor_disconnected`. -/
theorem c10_missing_unreachable (data : Reading) (st : Status) (errs warns : List String)
    (h : validate_record data = Except.ok (st, errs, warns)) :
    (∀ q, ("sensor_data:" ++ q ++ "_missing") ∉ errs) ∧
    "sensor_disconnected" ∉ classifyErrors errs := by
  have hr : ∃ r : VResult, validate_full data = Except.ok r ∧ r.errors = errs := by
    unfold validate_record at h
    rcases hv : validate_full data with e | r
    · rw [hv] at h
      cases h
    · rw [hv] at h
      simp only [Except.map] at h
      refine ⟨r, rfl, ?_⟩
      cases h
      rfl
  obtain ⟨r, hv, herrs⟩ := hr
  have hall := validate_errs_ok data r hv
  subst herrs
  constructor
  · intro q hq
    exact ((hall _ hq).1 q) rfl
  · exact classify_no_disconnect _ (fun e he => (hall e he).2)

/-- Witness for C10 at a concrete INVALID reading (unknown location). -/
theorem c10_missing_unreachable_witness :
    (∀ q, ("sensor_data:" ++ q ++ "_missing") ∉ (["invalid_loc_id:loc_9"] : List String)) ∧
    "sensor_disconnected" ∉ classifyErrors ["invalid_loc_id:loc_9"] :=
  c10_missing_unreachable c10Reading Status.INVALID ["invalid_loc_id:loc_9"] [] rfl

/-- The maximum `maxOfList` is `none` exactly on the empty list. -/
theorem maxOfList_eq_none {l : List ℚ} : maxOfList l = Option.none ↔ l = [] := by
  cases l with
  | nil => simp [maxOfList]
  | cons a rest =>
      simp only [maxOfList]
      cases maxOfList rest <;> simp

/-- The maximum of a list is a member. -/
theorem maxOfList_mem : ∀ {l : List ℚ} {m : ℚ}, maxOfList l = some m → m ∈ l := by
  intro l
  induction l with
  | nil =>
      intro m h
      cases h
  | cons a rest ih =>
      intro m h
      simp only [maxOfList] at h
      rcases hr : maxOfList rest with _ | mr
      · rw [hr] at h
        cases h
        exact List.mem_cons_self _ _
      · rw [hr] at h
        cases h
        rcases max_choice a mr with hm | hm
        · rw [hm]
          exact List.mem_cons_self _ _
        · rw [hm]
          exact List.mem_cons_of_mem _ (ih hr)

/-- Every member is bounded by the maximum. -/
theorem le_maxOfList : ∀ {l : List ℚ} {a m : ℚ}, a ∈ l → maxOfList l = some m → a ≤ m := by
  intro l
  induction l with
  | nil =>
      intro a m hmem _
      cases hmem
  | cons b rest ih =>
      intro a m hmem h
      simp only [maxOfList] at h
      rcases hr : maxOfList rest with _ | mr <;> rw [hr] at h <;> cases h
      · rw [maxOfList_eq_none.mp hr] at hmem
        rw [List.mem_singleton] at hmem
        rw [hmem]
      · rcases List.mem_cons.mp hmem with rfl | hmem'
        · exact le_max_left _ _
        · exact le_trans (ih hmem' hr) (le_max_right _ _)

/-- A fault-free cycle only appends fact rows. -/
theorem runCycle_facts_append (src : List SourceRow) (db : DB) :
    ∃ newF, (runCycle src db).facts = db.facts ++ newF := by
  unfold runCycle
  simp only [runCycleF]
  split
  · exact ⟨[], (List.append_nil _).symm⟩
  · exact ⟨_, rfl⟩

/-- C5 amended: when the watermark of a cycle ends up strictly past the
timestamp of an extracted reading, some fact row with a strictly later
`full_date` exists — the watermark does not wait for the excluded reading
itself — and the excluded reading is not extracted (hence never retried)
afterwards.  Retry happens only while no later-stamped reading has been
loaded. -/
theorem c5_watermark_amended (src : List SourceRow) (db : DB) (v : SourceRow) (t : ℚ)
    (hv : v ∈ extractNew src db) (ht : v.timestamp = some t)
    (hwm : t < watermark (runCycle src db)) :
    (∃ f ∈ (runCycle src db).facts, ∃ u : ℚ, f.full_date = some u ∧ t < u) ∧
    v ∉ extractNew src (runCycle src db) := by
  constructor
  · rcases hm : maxOfList ((runCycle src db).facts.filterMap FactRow.full_date) with _ | m
    · exfalso
      rcases runCycle_facts_append src db with ⟨newF, hfacts⟩
      have hnil : (runCycle src db).facts.filterMap FactRow.full_date = [] :=
        maxOfList_eq_none.mp hm
      rw [hfacts, List.filterMap_append] at hnil
      have hdb0 : db.facts.filterMap FactRow.full_date = [] :=
        (List.append_eq_nil.mp hnil).1
      have hwm0 : watermark db = epochTs := by
        unfold watermark
        rw [hdb0]
        rfl
      have hwm1 : watermark (runCycle src db) = epochTs := by
        unfold watermark
        rw [hm]
        rfl
      have hlt : watermark db < t := by
        have hp := (List.mem_filter.mp hv).2
        rw [ht] at hp
        simpa using hp
      rw [hwm0] at hlt
      rw [hwm1] at hwm
      exact absurd (lt_trans hlt hwm) (lt_irrefl _)
    · have hmm : m ∈ (runCycle src db).facts.filterMap FactRow.full_date := maxOfList_mem hm
      rcases List.mem_filterMap.mp hmm with ⟨f, hf, hfd⟩
      have hwm' : watermark (runCycle src db) = m := by
        unfold watermark
        rw [hm]
        rfl
      exact ⟨f, hf, m, hfd, by rw [← hwm']; exact hwm⟩
  · intro hmem
    have hp := (List.mem_filter.mp hmem).2
    rw [ht] at hp
    have h2 : watermark (runCycle src db) < t := by simpa using hp
    exact absurd (lt_trans h2 hwm) (lt_irrefl _)

/-- Witness for C5 amended at the concrete two-reading scenario. -/
theorem c5_watermark_amended_witness :
    (∃ f ∈ (runCycle [c5RowBad, c5RowGood] emptyDB).facts, ∃ u : ℚ,
      f.full_date = some u ∧ (1 : ℚ) < u) ∧
    c5RowBad ∉ extractNew [c5RowBad, c5RowGood] (runCycle [c5RowBad, c5RowGood] emptyDB) :=
  c5_watermark_amended [c5RowBad, c5RowGood] emptyDB c5RowBad 1 (by decide) rfl (by decide)

/-- All four natural-key attributes of a `dim_soil` row are non-null. -/
def soilAllSome (s : DimSoilRow) : Prop :=
  s.ph.isSome ∧ s.nitrogen.isSome ∧ s.phosphorus.isSome ∧ s.potassium.isSome

/-- The `dim_soil` natural-key tuple of a source row. -/
def soilTupleOf (r : SourceRow) : DimSoilRow :=
  ⟨r.ph, r.nitrogen, r.phosphorus, r.potassium⟩

/-- SQL equality is TRUE exactly when both sides are the same non-null
value. -/
theorem nullEq_true_iff {α : Type} [DecidableEq α] (a b : Option α) :
    nullEq a b = true ↔ ∃ x, a = some x ∧ b = some x := by
  cases a <;> cases b <;> simp only [nullEq, decide_eq_true_eq] <;> simp [eq_comm]

/-- Against a fully non-null `dim_soil` row, the `NOT EXISTS` predicate is
exact natural-key equality. -/
theorem soilMatches_iff (ds : DimSoilRow) (r : SourceRow) (hds : soilAllSome ds) :
    soilMatches ds r = true ↔ ds = soilTupleOf r := by
  obtain ⟨hp, hn, hph, hk⟩ := hds
  unfold soilMatches soilTupleOf
  simp only [Bool.and_eq_true, nullEq_true_iff]
  constructor
  · rintro ⟨⟨⟨⟨x1, hx1, hx1'⟩, x2, hx2, hx2'⟩, x3, hx3, hx3'⟩, x4, hx4, hx4'⟩
    cases ds
    simp only at hx1 hx2 hx3 hx4 ⊢
    rw [hx1, hx1', hx2, hx2', hx3, hx3', hx4, hx4']
  · intro he
    rcases Option.isSome_iff_exists.mp hp with ⟨x1, hx1⟩
    rcases Option.isSome_iff_exists.mp hn with ⟨x2, hx2⟩
    rcases Option.isSome_iff_exists.mp hph with ⟨x3, hx3⟩
    rcases Option.isSome_iff_exists.mp hk with ⟨x4, hx4⟩
    have h1 : r.ph = some x1 := by rw [← hx1, he]
    have h2 : r.nitrogen = some x2 := by rw [← hx2, he]
    have h3 : r.phosphorus = some x3 := by rw [← hx3, he]
    have h4 : r.potassium = some x4 := by rw [← hx4, he]
    exact ⟨⟨⟨⟨x1, hx1, h1⟩, x2, hx2, h2⟩, x3, hx3, h3⟩, x4, hx4, h4⟩

/-- Membership in the `dim_soil` insert candidate set, declaratively. -/
theorem mem_dimSoilCandidates (nv : List SourceRow) (tbl : List DimSoilRow) (tu : DimSoilRow) :
    tu ∈ dimSoilCandidates nv tbl ↔
      ∃ v ∈ nv, soilTupleOf v = tu ∧ (∀ ds ∈ tbl, soilMatches ds v = false) ∧ soilAllSome tu := by
  unfold dimSoilCandidates
  rw [List.mem_dedup, List.mem_map]
  constructor
  · rintro ⟨v, hvf, hmk⟩
    rcases List.mem_filter.mp hvf with ⟨hv, hcond⟩
    simp only [Bool.and_eq_true, Bool.not_eq_true', List.any_eq_false] at hcond
    obtain ⟨⟨⟨⟨hno, h1⟩, h2⟩, h3⟩, h4⟩ := hcond
    refine ⟨v, hv, hmk, (fun ds hds => Bool.eq_false_iff.mpr (hno ds hds)), ?_⟩
    rw [← hmk]
    exact ⟨h1, h2, h3, h4⟩
  · rintro ⟨v, hv, hmk, hno, hsome⟩
    refine ⟨v, ?_, hmk⟩
    rw [List.mem_filter]
    refine ⟨hv, ?_⟩
    have hsv : soilAllSome (soilTupleOf v) := by
      rw [hmk]
      exact hsome
    obtain ⟨h1, h2, h3, h4⟩ := hsv
    simp only [Bool.and_eq_true, Bool.not_eq_true', List.any_eq_false]
    exact ⟨⟨⟨⟨(fun x hx => Bool.eq_false_iff.mp (hno x hx)), h1⟩, h2⟩, h3⟩, h4⟩

/-- The predicate `sqlNotIn` is TRUE exactly when the value is non-null and every listed
element is a different non-null value. -/
theorem sqlNotIn_true_iff {α : Type} [DecidableEq α] (v : Option α) (s : List (Option α)) :
    sqlNotIn v s = true ↔ v.isSome ∧ ∀ e ∈ s, e.isSome ∧ e ≠ v := by
  cases v with
  | none => simp [sqlNotIn]
  | some x =>
      simp only [sqlNotIn, List.all_eq_true, Option.isSome_some, true_and]
      constructor
      · intro h e he
        have hh := h e he
        cases e with
        | none => cases hh
        | some y =>
            have hy : y ≠ x := by simpa using hh
            exact ⟨rfl, by simp [hy]⟩
      · intro h e he
        rcases h e he with ⟨hs, hne⟩
        cases e with
        | none => cases hs
        | some y =>
            have hyx : y ≠ x := fun hyx => hne (by rw [hyx])
            simpa using hyx

/-- Membership in the `dim_location` insert candidate set: presence in the
table is decided by `loc_id` alone. -/
theorem mem_dimLocationCandidates (nv : List SourceRow) (tbl : List DimLocationRow)
    (tl : DimLocationRow) :
    tl ∈ dimLocationCandidates nv tbl ↔
      ∃ v ∈ nv, DimLocationRow.mk v.loc_id v.latitude v.longitude = tl ∧
        tl.loc_id.isSome ∧ ∀ d ∈ tbl, d.loc_id.isSome ∧ d.loc_id ≠ tl.loc_id := by
  unfold dimLocationCandidates
  rw [List.mem_dedup, List.mem_map]
  constructor
  · rintro ⟨v, hvf, hmk⟩
    rcases List.mem_filter.mp hvf with ⟨hv, hcond⟩
    rw [Bool.and_eq_true] at hcond
    obtain ⟨hsome, hnotin⟩ := hcond
    rw [sqlNotIn_true_iff] at hnotin
    refine ⟨v, hv, hmk, ?_, ?_⟩
    · rw [← hmk]
      exact hsome
    · intro d hd
      have hh := hnotin.2 d.loc_id (List.mem_map.mpr ⟨d, hd, rfl⟩)
      rw [← hmk]
      exact hh
  · rintro ⟨v, hv, hmk, hsome, hall⟩
    have hvl : v.loc_id = tl.loc_id := by rw [← hmk]
    refine ⟨v, ?_, hmk⟩
    rw [List.mem_filter]
    refine ⟨hv, ?_⟩
    rw [Bool.and_eq_true]
    constructor
    · rw [hvl]
      exact hsome
    · rw [sqlNotIn_true_iff]
      constructor
      · rw [hvl]
        exact hsome
      · intro e he
        rcases List.mem_map.mp he with ⟨d, hd, hde⟩
        rcases hall d hd with ⟨hds, hdne⟩
        rw [← hde, hvl]
        exact ⟨hds, hdne⟩

/-- C6 amended: under non-null, duplicate-free existing soil rows, the
`dim_soil` upsert keeps the table duplicate-free and a tuple is present
afterwards iff it was present before or is a fully non-null extracted
natural-key tuple that was absent — the claimed "exact full-tuple match"
semantics.  For `dim_location`, by contrast, a tuple is inserted only when
its `loc_id` differs from every existing row's `loc_id`: presence is
decided by `loc_id` alone, not by the full tuple. -/
theorem c6_upsert_amended (nv : List SourceRow) (db : DB)
    (hnn : ∀ s ∈ db.dim_soil, soilAllSome s) (hnd : db.dim_soil.Nodup) :
    ((insertDimSoil nv db).dim_soil.Nodup) ∧
    (∀ tu : DimSoilRow, tu ∈ (insertDimSoil nv db).dim_soil ↔
      (tu ∈ db.dim_soil ∨ (soilAllSome tu ∧ (∃ v ∈ nv, soilTupleOf v = tu) ∧
        tu ∉ db.dim_soil))) ∧
    (∀ tl : DimLocationRow, tl ∈ (insertDimLocation nv db).dim_location ↔
      (tl ∈ db.dim_location ∨
        ((∃ v ∈ nv, DimLocationRow.mk v.loc_id v.latitude v.longitude = tl) ∧
          tl.loc_id.isSome ∧ ∀ d ∈ db.dim_location, d.loc_id.isSome ∧ d.loc_id ≠ tl.loc_id))) := by
  refine ⟨?_, ?_, ?_⟩
  · show (db.dim_soil ++ dimSoilCandidates nv db.dim_soil).Nodup
    refine List.Nodup.append hnd (List.nodup_dedup _) ?_
    intro tu htu1 htu2
    rcases (mem_dimSoilCandidates nv db.dim_soil tu).mp htu2 with ⟨v, _, hmk, hno, hsome⟩
    have hfalse := hno tu htu1
    have htrue : soilMatches tu v = true :=
      (soilMatches_iff tu v (hnn tu htu1)).mpr hmk.symm
    rw [htrue] at hfalse
    cases hfalse
  · intro tu
    show tu ∈ db.dim_soil ++ dimSoilCandidates nv db.dim_soil ↔ _
    rw [List.mem_append, mem_dimSoilCandidates]
    constructor
    · rintro (h | ⟨v, hv, hmk, hno, hsome⟩)
      · left
        exact h
      · right
        refine ⟨hsome, ⟨v, hv, hmk⟩, ?_⟩
        intro htu
        have hfalse := hno tu htu
        have htrue : soilMatches tu v = true :=
          (soilMatches_iff tu v hsome).mpr hmk.symm
        rw [htrue] at hfalse
        cases hfalse
    · rintro (h | ⟨hsome, ⟨v, hv, hmk⟩, hnotin⟩)
      · left
        exact h
      · right
        refine ⟨v, hv, hmk, ?_, hsome⟩
        intro ds hds
        cases hsm : soilMatches ds v with
        | false => rfl
        | true =>
            have hdst : ds = soilTupleOf v := (soilMatches_iff ds v (hnn ds hds)).mp hsm
            rw [hdst, hmk] at hds
            exact absurd hds hnotin
  · intro tl
    show tl ∈ db.dim_location ++ dimLocationCandidates nv db.dim_location ↔ _
    rw [List.mem_append, mem_dimLocationCandidates]
    constructor
    · rintro (h | ⟨v, hv, hmk, hsome, hall⟩)
      · left
        exact h
      · right
        exact ⟨⟨v, hv, hmk⟩, hsome, hall⟩
    · rintro (h | ⟨⟨v, hv, hmk⟩, hsome, hall⟩)
      · left
        exact h
      · right
        exact ⟨v, hv, hmk, hsome, hall⟩

/-- Witness for C6 amended: one clean row into the empty warehouse keeps
`dim_soil` duplicate-free. -/
theorem c6_upsert_amended_witness :
    (insertDimSoil [etlRow1] emptyDB).dim_soil.Nodup :=
  (c6_upsert_amended [etlRow1] emptyDB (by intro s hs; cases hs) List.nodup_nil).1

/-! Helpers for the idempotence analysis (C2). -/

/-- The dimension-upsert phase of a fault-free cycle. -/
def dimsUpserted (nv : List SourceRow) (db : DB) : DB :=
  insertDimWeather nv (insertDimSoil nv (insertDimTime nv (insertDimLocation nv db)))

/-- An empty extraction makes the cycle a no-op. -/
theorem runCycle_empty (src : List SourceRow) (db : DB) (h : extractNew src db = []) :
    runCycle src db = db := by
  unfold runCycle
  simp only [runCycleF]
  rw [if_pos h]

/-- A fault-free cycle with a non-empty extraction is the dimension
upserts followed by the fact insert. -/
theorem runCycle_eq (src : List SourceRow) (db : DB) (h : extractNew src db ≠ []) :
    runCycle src db = insertFacts (extractNew src db) (dimsUpserted (extractNew src db) db) := by
  unfold runCycle
  simp only [runCycleF]
  rw [if_neg h]
  rfl

/-- The `dim_location` table after a cycle. -/
theorem runCycle_dim_location (src : List SourceRow) (db : DB) (h : extractNew src db ≠ []) :
    (runCycle src db).dim_location =
      db.dim_location ++ dimLocationCandidates (extractNew src db) db.dim_location := by
  rw [runCycle_eq src db h]
  rfl

/-- The `dim_time` table after a cycle. -/
theorem runCycle_dim_time (src : List SourceRow) (db : DB) (h : extractNew src db ≠ []) :
    (runCycle src db).dim_time =
      db.dim_time ++ dimTimeCandidates (extractNew src db) db.dim_time := by
  rw [runCycle_eq src db h]
  rfl

/-- The `dim_soil` table after a cycle. -/
theorem runCycle_dim_soil (src : List SourceRow) (db : DB) (h : extractNew src db ≠ []) :
    (runCycle src db).dim_soil =
      db.dim_soil ++ dimSoilCandidates (extractNew src db) db.dim_soil := by
  rw [runCycle_eq src db h]
  rfl

/-- The `dim_weather` table after a cycle. -/
theorem runCycle_dim_weather (src : List SourceRow) (db : DB) (h : extractNew src db ≠ []) :
    (runCycle src db).dim_weather =
      db.dim_weather ++ dimWeatherCandidates (extractNew src db) db.dim_weather := by
  rw [runCycle_eq src db h]
  rfl

/-- The fact table after a cycle. -/
theorem runCycle_facts_eq (src : List SourceRow) (db : DB) (h : extractNew src db ≠ []) :
    (runCycle src db).facts = db.facts ++
      (extractNew src db).flatMap (factRowsFor (dimsUpserted (extractNew src db) db)) := by
  rw [runCycle_eq src db h]
  rfl

/-- Appending only elements above the current default-completed maximum
cannot decrease it. -/
theorem maxOfList_append_ge (l1 l2 : List ℚ) (d : ℚ)
    (h2 : ∀ u ∈ l2, (maxOfList l1).getD d < u) :
    (maxOfList l1).getD d ≤ (maxOfList (l1 ++ l2)).getD d := by
  rcases hm : maxOfList (l1 ++ l2) with _ | m
  · rcases List.append_eq_nil.mp (maxOfList_eq_none.mp hm) with ⟨ha, hb⟩
    subst ha
    subst hb
    exact le_refl _
  · rcases hm1 : maxOfList l1 with _ | m1
    · have h1nil := maxOfList_eq_none.mp hm1
      subst h1nil
      simp only [List.nil_append] at hm
      have hmem := maxOfList_mem hm
      have hlt := h2 m hmem
      rw [hm1] at hlt
      simp only [Option.getD_none] at hlt
      simp only [Option.getD_none, Option.getD_some]
      exact le_of_lt hlt
    · simp only [Option.getD_some]
      exact le_maxOfList (List.mem_append_left _ (maxOfList_mem hm1)) hm

/-- Every fact row produced by the join carries the source reading's
timestamp as its `full_date` (via the `dim_time` join condition). -/
theorem factRowsFor_full_date (dbase : DB) (v : SourceRow) (f : FactRow)
    (hf : f ∈ factRowsFor dbase v) : nullEq v.timestamp f.full_date = true := by
  unfold factRowsFor at hf
  rcases List.mem_flatMap.mp hf with ⟨li, _, h1⟩
  rcases List.mem_flatMap.mp h1 with ⟨wi, _, h2⟩
  rcases List.mem_flatMap.mp h2 with ⟨si, _, h3⟩
  rcases List.mem_map.mp h3 with ⟨ti, hti, hmk⟩
  have hmatch := (List.mem_filter.mp hti).2
  unfold timeMatches at hmatch
  rw [← hmk]
  exact hmatch

/-- Relative to a warehouse with a watermark at least as high, an
extracted row was also extracted before, and its timestamp exceeds the
higher watermark. -/
theorem extractNew_anti (src : List SourceRow) (db db' : DB)
    (h : watermark db ≤ watermark db') :
    ∀ v ∈ extractNew src db', v ∈ extractNew src db ∧
      ∃ t, v.timestamp = some t ∧ watermark db' < t := by
  intro v hv
  rcases List.mem_filter.mp hv with ⟨hsrc, hp⟩
  rcases hts : v.timestamp with _ | t
  · rw [hts] at hp
    cases hp
  · rw [hts] at hp
    have hlt : watermark db' < t := by simpa using hp
    refine ⟨List.mem_filter.mpr ⟨hsrc, ?_⟩, t, rfl, hlt⟩
    rw [hts]
    simpa using lt_of_le_of_lt h hlt

/-- Hypothesis of the amended idempotence claim: a row's weather tuple is
either fully non-null or has a null `temperature_2m` (and is then ignored
by the `dim_weather` upsert and the fact join alike). -/
def weatherOkRow (r : SourceRow) : Prop :=
  r.weather_temperature_2m = Option.none ∨
  (r.weather_relative_humidity_2m.isSome ∧ r.weather_wind_speed_10m.isSome ∧
   r.weather_wind_direction_10m.isSome ∧ r.weather_rain.isSome ∧
   r.weather_surface_pressure.isSome)

/-- SQL equality of a non-null value with itself is TRUE. -/
theorem nullEq_self {α : Type} [DecidableEq α] (a : Option α) (h : a.isSome) :
    nullEq a a = true := by
  rcases Option.isSome_iff_exists.mp h with ⟨x, hx⟩
  rw [hx]
  simp [nullEq]

/-- Re-running the `dim_location` upsert on a subset of the already
upserted rows inserts nothing: every candidate `loc_id` was either already
present or has just been inserted. -/
theorem dimLocationCandidates_nil (nv2 nv1 : List SourceRow) (tbl : List DimLocationRow)
    (hsub : ∀ v ∈ nv2, v ∈ nv1) :
    dimLocationCandidates nv2 (tbl ++ dimLocationCandidates nv1 tbl) = [] := by
  unfold dimLocationCandidates
  rw [List.dedup_eq_nil, List.map_eq_nil_iff, List.filter_eq_nil_iff]
  intro v hv hcond
  rw [Bool.and_eq_true] at hcond
  obtain ⟨hsome, hnotin⟩ := hcond
  rw [sqlNotIn_true_iff] at hnotin
  have hnotin1 : sqlNotIn v.loc_id (tbl.map DimLocationRow.loc_id) = true := by
    rw [sqlNotIn_true_iff]
    exact ⟨hnotin.1, fun e he => hnotin.2 e (by
      rw [List.map_append]
      exact List.mem_append_left _ he)⟩
  have hv1 : (DimLocationRow.mk v.loc_id v.latitude v.longitude) ∈
      dimLocationCandidates nv1 tbl := by
    unfold dimLocationCandidates
    rw [List.mem_dedup]
    exact List.mem_map.mpr ⟨v, List.mem_filter.mpr ⟨hsub v hv, by
      rw [Bool.and_eq_true]
      exact ⟨hsome, hnotin1⟩⟩, rfl⟩
  have hkey := hnotin.2 v.loc_id (by
    rw [List.map_append]
    exact List.mem_append_right _ (List.mem_map.mpr ⟨_, hv1, rfl⟩))
  exact hkey.2 rfl

/-- The `dim_time` tuple always carries its timestamp as `full_date`. -/
theorem mkDimTimeRow_full_date (ts : Option ℚ) : (mkDimTimeRow ts).full_date = ts := by
  cases ts <;> rfl

/-- Re-running the `dim_time` upsert on a subset inserts nothing. -/
theorem dimTimeCandidates_nil (nv2 nv1 : List SourceRow) (tbl : List DimTimeRow)
    (hsub : ∀ v ∈ nv2, v ∈ nv1) :
    dimTimeCandidates nv2 (tbl ++ dimTimeCandidates nv1 tbl) = [] := by
  unfold dimTimeCandidates
  rw [List.dedup_eq_nil, List.map_eq_nil_iff, List.filter_eq_nil_iff]
  intro v hv hcond
  rw [Bool.and_eq_true] at hcond
  obtain ⟨hsome, hnotin⟩ := hcond
  rw [sqlNotIn_true_iff] at hnotin
  have hnotin1 : sqlNotIn v.timestamp (tbl.map DimTimeRow.full_date) = true := by
    rw [sqlNotIn_true_iff]
    exact ⟨hnotin.1, fun e he => hnotin.2 e (by
      rw [List.map_append]
      exact List.mem_append_left _ he)⟩
  have hv1 : mkDimTimeRow v.timestamp ∈ dimTimeCandidates nv1 tbl := by
    unfold dimTimeCandidates
    rw [List.mem_dedup]
    exact List.mem_map.mpr ⟨v, List.mem_filter.mpr ⟨hsub v hv, by
      rw [Bool.and_eq_true]
      exact ⟨hsome, hnotin1⟩⟩, rfl⟩
  have hkey := hnotin.2 v.timestamp (by
    rw [List.map_append]
    refine List.mem_append_right _ (List.mem_map.mpr ⟨_, hv1, ?_⟩)
    exact mkDimTimeRow_full_date v.timestamp)
  exact hkey.2 rfl

/-- Re-running the `dim_soil` upsert on a subset inserts nothing. -/
theorem dimSoilCandidates_nil (nv2 nv1 : List SourceRow) (tbl : List DimSoilRow)
    (hsub : ∀ v ∈ nv2, v ∈ nv1) :
    dimSoilCandidates nv2 (tbl ++ dimSoilCandidates nv1 tbl) = [] := by
  unfold dimSoilCandidates
  rw [List.dedup_eq_nil, List.map_eq_nil_iff, List.filter_eq_nil_iff]
  intro v hv hcond
  simp only [Bool.and_eq_true, Bool.not_eq_true', List.any_eq_false] at hcond
  obtain ⟨⟨⟨⟨hno, h1⟩, h2⟩, h3⟩, h4⟩ := hcond
  have hv1 : (DimSoilRow.mk v.ph v.nitrogen v.phosphorus v.potassium) ∈
      dimSoilCandidates nv1 tbl := by
    unfold dimSoilCandidates
    rw [List.mem_dedup]
    exact List.mem_map.mpr ⟨v, List.mem_filter.mpr ⟨hsub v hv, by
      simp only [Bool.and_eq_true, Bool.not_eq_true', List.any_eq_false]
      exact ⟨⟨⟨⟨fun x hx => hno x (List.mem_append_left _ hx), h1⟩, h2⟩, h3⟩, h4⟩⟩, rfl⟩
  have hmatch : soilMatches (DimSoilRow.mk v.ph v.nitrogen v.phosphorus v.potassium) v = true := by
    unfold soilMatches
    simp only [Bool.and_eq_true]
    exact ⟨⟨⟨nullEq_self _ h1, nullEq_self _ h2⟩, nullEq_self _ h3⟩, nullEq_self _ h4⟩
  exact hno _ (List.mem_append_right _ hv1) hmatch

/-- Under `weatherOkRow`, re-running the `dim_weather` upsert on a subset
inserts nothing (every candidate tuple is fully non-null and was just
inserted, so the `NOT EXISTS` check now sees it). -/
theorem dimWeatherCandidates_nil (nv2 nv1 : List SourceRow) (tbl : List DimWeatherRow)
    (hsub : ∀ v ∈ nv2, v ∈ nv1) (hok : ∀ v ∈ nv2, weatherOkRow v) :
    dimWeatherCandidates nv2 (tbl ++ dimWeatherCandidates nv1 tbl) = [] := by
  unfold dimWeatherCandidates
  rw [List.dedup_eq_nil, List.map_eq_nil_iff, List.filter_eq_nil_iff]
  intro v hv hcond
  simp only [Bool.and_eq_true, Bool.not_eq_true', List.any_eq_false] at hcond
  obtain ⟨hno, htemp⟩ := hcond
  have hv1 : (DimWeatherRow.mk v.weather_temperature_2m v.weather_relative_humidity_2m
      v.weather_wind_speed_10m v.weather_wind_direction_10m v.weather_rain
      v.weather_surface_pressure) ∈ dimWeatherCandidates nv1 tbl := by
    unfold dimWeatherCandidates
    rw [List.mem_dedup]
    exact List.mem_map.mpr ⟨v, List.mem_filter.mpr ⟨hsub v hv, by
      simp only [Bool.and_eq_true, Bool.not_eq_true', List.any_eq_false]
      exact ⟨fun x hx => hno x (List.mem_append_left _ hx), htemp⟩⟩, rfl⟩
  rcases hok v hv with hnone | ⟨hh, hws, hwd, hr, hsp⟩
  · rw [hnone] at htemp
    cases htemp
  · have hmatch : weatherMatches (DimWeatherRow.mk v.weather_temperature_2m
        v.weather_relative_humidity_2m v.weather_wind_speed_10m v.weather_wind_direction_10m
        v.weather_rain v.weather_surface_pressure) v = true := by
      unfold weatherMatches
      simp only [Bool.and_eq_true]
      exact ⟨⟨⟨⟨⟨nullEq_self _ htemp, nullEq_self _ hh⟩, nullEq_self _ hws⟩,
        nullEq_self _ hwd⟩, nullEq_self _ hr⟩, nullEq_self _ hsp⟩
    exact hno _ (List.mem_append_right _ hv1) hmatch

/-- Inserting nothing at every stage leaves the warehouse unchanged. -/
theorem insert_all_noop (nv2 : List SourceRow) (db1 : DB)
    (hl : dimLocationCandidates nv2 db1.dim_location = [])
    (ht : dimTimeCandidates nv2 db1.dim_time = [])
    (hs : dimSoilCandidates nv2 db1.dim_soil = [])
    (hw : dimWeatherCandidates nv2 db1.dim_weather = [])
    (hf : ∀ v ∈ nv2, factRowsFor db1 v = []) :
    insertFacts nv2 (dimsUpserted nv2 db1) = db1 := by
  have hA : insertDimLocation nv2 db1 = db1 := by
    unfold insertDimLocation
    rw [hl, List.append_nil]
  unfold dimsUpserted
  rw [hA]
  have hB : insertDimTime nv2 db1 = db1 := by
    unfold insertDimTime
    rw [ht, List.append_nil]
  rw [hB]
  have hC : insertDimSoil nv2 db1 = db1 := by
    unfold insertDimSoil
    rw [hs, List.append_nil]
  rw [hC]
  have hD : insertDimWeather nv2 db1 = db1 := by
    unfold insertDimWeather
    rw [hw, List.append_nil]
  rw [hD]
  unfold insertFacts
  have hfm : nv2.flatMap (factRowsFor db1) = [] := by
    rw [List.flatMap_eq_nil_iff]
    exact hf
  rw [hfm, List.append_nil]

/-- C2 amended: a second fault-free cycle over the same source rows is a
no-op — zero new rows in every dimension table and in the fact table —
provided every source row's weather tuple is fully non-null or has a null
`temperature_2m` (the counterexample shows the hypothesis is needed: a
partially null weather tuple is re-inserted into `dim_weather` every
cycle). -/
theorem c2_idempotent_amended (src : List SourceRow) (db : DB)
    (hH : ∀ r ∈ src, weatherOkRow r) :
    runCycle src (runCycle src db) = runCycle src db := by
  by_cases h1 : extractNew src db = []
  · rw [runCycle_empty src db h1]
    exact runCycle_empty src db h1
  · by_cases h2 : extractNew src (runCycle src db) = []
    · exact runCycle_empty _ _ h2
    · have hnewdates : ∀ u ∈ ((extractNew src db).flatMap
          (factRowsFor (dimsUpserted (extractNew src db) db))).filterMap FactRow.full_date,
          watermark db < u := by
        intro u hu
        rcases List.mem_filterMap.mp hu with ⟨f, hf, hfd⟩
        rcases List.mem_flatMap.mp hf with ⟨v, hv, hfv⟩
        have hne := factRowsFor_full_date _ _ _ hfv
        rcases (nullEq_true_iff _ _).mp hne with ⟨t, hvt, hft⟩
        have hut : u = t := by
          rw [hft] at hfd
          exact (Option.some.inj hfd).symm
        subst hut
        have hp := (List.mem_filter.mp hv).2
        rw [hvt] at hp
        simpa using hp
      have hwm_mono : watermark db ≤ watermark (runCycle src db) := by
        have hfeq := runCycle_facts_eq src db h1
        unfold watermark
        rw [hfeq, List.filterMap_append]
        exact maxOfList_append_ge _ _ _ hnewdates
      have hsub : ∀ v ∈ extractNew src (runCycle src db), v ∈ extractNew src db :=
        fun v hv => (extractNew_anti src db (runCycle src db) hwm_mono v hv).1
      have hhigh : ∀ v ∈ extractNew src (runCycle src db),
          ∃ t, v.timestamp = some t ∧ watermark (runCycle src db) < t :=
        fun v hv => (extractNew_anti src db (runCycle src db) hwm_mono v hv).2
      have hHnv2 : ∀ v ∈ extractNew src (runCycle src db), weatherOkRow v :=
        fun v hv => hH v (List.mem_filter.mp hv).1
      have hloc : dimLocationCandidates (extractNew src (runCycle src db))
          (runCycle src db).dim_location = [] := by
        rw [runCycle_dim_location src db h1]
        exact dimLocationCandidates_nil _ _ _ hsub
      have htime : dimTimeCandidates (extractNew src (runCycle src db))
          (runCycle src db).dim_time = [] := by
        rw [runCycle_dim_time src db h1]
        exact dimTimeCandidates_nil _ _ _ hsub
      have hsoil : dimSoilCandidates (extractNew src (runCycle src db))
          (runCycle src db).dim_soil = [] := by
        rw [runCycle_dim_soil src db h1]
        exact dimSoilCandidates_nil _ _ _ hsub
      have hweather : dimWeatherCandidates (extractNew src (runCycle src db))
          (runCycle src db).dim_weather = [] := by
        rw [runCycle_dim_weather src db h1]
        exact dimWeatherCandidates_nil _ _ _ hsub hHnv2
      have hfactnil : ∀ v ∈ extractNew src (runCycle src db),
          factRowsFor (runCycle src db) v = [] := by
        intro v hv
        rcases hhigh v hv with ⟨t, hvt, hlt⟩
        by_contra hne
        rcases List.exists_mem_of_ne_nil _ hne with ⟨f, hf⟩
        have hsame : factRowsFor (runCycle src db) v =
            factRowsFor (dimsUpserted (extractNew src db) db) v := by
          rw [runCycle_eq src db h1]
          rfl
        rw [hsame] at hf
        have hnemem : f ∈ (extractNew src db).flatMap
            (factRowsFor (dimsUpserted (extractNew src db) db)) :=
          List.mem_flatMap.mpr ⟨v, hsub v hv, hf⟩
        have hdate := factRowsFor_full_date _ _ _ hf
        rcases (nullEq_true_iff _ _).mp hdate with ⟨u, hvu, hfu⟩
        have hut : u = t := by
          rw [hvt] at hvu
          exact (Option.some.inj hvu).symm
        subst hut
        have hmemdate : u ∈ (runCycle src db).facts.filterMap FactRow.full_date := by
          rw [runCycle_facts_eq src db h1, List.filterMap_append]
          exact List.mem_append_right _ (List.mem_filterMap.mpr ⟨f, hnemem, hfu⟩)
        have hle : u ≤ watermark (runCycle src db) := by
          unfold watermark
          rcases hm : maxOfList ((runCycle src db).facts.filterMap FactRow.full_date) with _ | m
          · rw [maxOfList_eq_none.mp hm] at hmemdate
            cases hmemdate
          · simp only [Option.getD_some]
            exact le_maxOfList hmemdate hm
        exact absurd hlt (not_lt.mpr hle)
      calc runCycle src (runCycle src db)
          = insertFacts (extractNew src (runCycle src db))
              (dimsUpserted (extractNew src (runCycle src db)) (runCycle src db)) :=
            runCycle_eq _ _ h2
        _ = runCycle src db :=
            insert_all_noop _ _ hloc htime hsoil hweather hfactnil

/-- Witness for C2 amended at a concrete clean row over the empty
warehouse. -/
theorem c2_idempotent_amended_witness :
    runCycle [etlRow1] (runCycle [etlRow1] emptyDB) = runCycle [etlRow1] emptyDB :=
  c2_idempotent_amended [etlRow1] emptyDB (by
    intro r hr
    rw [List.mem_singleton] at hr
    rw [hr]
    right
    exact ⟨rfl, rfl, rfl, rfl, rfl⟩)

end FarmPipeline
